import Mathlib

/-!
# glscopeclient `WaveformArea`: resource lifecycle

A shallow embedding of `src/glscopeclient/WaveformArea.cpp`: the constructors,
the destructor, `OnRemoveOverlay`, `on_realize`, `on_unrealize`,
`CleanupGLHandles` and the five `Initialize*Pass` functions.

* The C++ object state is a record (`WaveformArea`), the process-wide state
  (`m_isGlewInitialized`, the channel reference counts, the heap of
  `WaveformRenderData` objects) is a second record (`Globals`).
* Every member function is a state transformer `Proc Unit` that also returns
  the trace of the effects it performed and how it ended: normal return,
  `exit(1)`, or `LogFatal`.
* What the platform answers during a call (GL error, GLEW, which shader loads)
  is an explicit argument (`Env`).
-/

namespace Scopehal

/-! ## Data model -/

/-- Identity of a channel object (the pointer `StreamDescriptor::m_channel`). -/
abbrev ChannelId := Nat

/-- Identity of a heap-allocated `WaveformRenderData` object. Identities are
allocation sequence numbers and are never reused. -/
abbrev RenderDataId := Nat

/-- A stream descriptor: a channel pointer and a stream index. -/
structure StreamDescriptor where
  m_channel : ChannelId
  m_stream : Nat
deriving DecidableEq, Repr

/-- The shader sources named by the `Load` calls of the `Initialize*Pass` functions. -/
inductive ShaderFile where
  | waveform_compute_digital
  | waveform_compute_analog
  | colormap_vertex
  | colormap_fragment
  | eye_vertex
  | eye_fragment
  | persist_vertex
  | persist_fragment
  | cairo_vertex
  | cairo_fragment
deriving DecidableEq, Repr

/-- The path passed to `Load` for each shader source. -/
def ShaderFile.path : ShaderFile → String
  | .waveform_compute_digital => "shaders/waveform-compute-digital.glsl"
  | .waveform_compute_analog => "shaders/waveform-compute-analog.glsl"
  | .colormap_vertex => "shaders/colormap-vertex.glsl"
  | .colormap_fragment => "shaders/colormap-fragment.glsl"
  | .eye_vertex => "shaders/eye-vertex.glsl"
  | .eye_fragment => "shaders/eye-fragment.glsl"
  | .persist_vertex => "shaders/persist-vertex.glsl"
  | .persist_fragment => "shaders/persist-fragment.glsl"
  | .cairo_vertex => "shaders/cairo-vertex.glsl"
  | .cairo_fragment => "shaders/cairo-fragment.glsl"

/-- The six `Program` members of a `WaveformArea`. -/
inductive ProgramId where
  | digitalWaveformCompute
  | analogWaveformCompute
  | colormap
  | persist
  | eye
  | cairo
deriving DecidableEq, Repr

/-- The four passes that own a fullscreen-polygon VAO and VBO. -/
inductive QuadId where
  | colormap
  | persist
  | cairo
  | eye
deriving DecidableEq, Repr

/-- Modelled from the spec: the enumeration `OscilloscopeWindow::EyeColor` is declared in
`OscilloscopeWindow.h`, which is not among the sources. The six palettes that
`InitializeEyePass` names (`EYE_CRT`, `EYE_IRONBOW`, `EYE_KRAIN`, `EYE_RAINBOW`,
`EYE_GRAYSCALE`, `EYE_VIRIDIS`) are numbered 0..5 in that order and
`NUM_EYE_COLORS` is their number. -/
def NUM_EYE_COLORS : Nat := 6

/-- The array `fnames` of `InitializeEyePass`, indexed by palette. -/
def fnames : List String :=
  [ "gradients/eye-gradient-crt.rgba",
    "gradients/eye-gradient-ironbow.rgba",
    "gradients/eye-gradient-krain.rgba",
    "gradients/eye-gradient-rainbow.rgba",
    "gradients/eye-gradient-grayscale.rgba",
    "gradients/eye-gradient-viridis.rgba" ]

/-- The GL objects a `WaveformArea` owns as members. -/
inductive GLObject where
  | program (p : ProgramId)
  | vao (q : QuadId)
  | vbo (q : QuadId)
  | cairoTexture
  | cairoTextureOver
  | eyeColorRamp (i : Nat)
  | windowFramebuffer
deriving DecidableEq, Repr

/-- The start-up checks made by `on_realize` under `if(!m_isGlewInitialized)`. -/
inductive Capability where
  | gl_error
  | context
  | glew_init
  | gl_4_2
  | extensions
deriving DecidableEq, Repr

/-- Observable effects, in program order. -/
inductive Event where
  | gtk_on_realize
  | gtk_on_unrealize
  | make_current
  | check (c : Capability)
  | messageDialog
  | load (f : ShaderFile) (ok : Bool)
  | add (p : ProgramId) (f : ShaderFile)
  | link (p : ProgramId) (ok : Bool)
  | fopen (i : Nat) (ok : Bool)
  | newRenderData (id : RenderDataId) (ch : StreamDescriptor)
  | deleteRenderData (id : RenderDataId)
  | eraseOverlayRenderData (f : StreamDescriptor) (id : RenderDataId)
  | destroy (o : GLObject)
  | detach (o : GLObject)
  | addRef (c : ChannelId)
  | release (c : ChannelId)
  | deleteDialog (d : Nat)
  | removeMenuItem (m : Nat)
deriving DecidableEq, Repr

/-- Modelled from the spec: class `Program` (`Program.cpp` is not among the sources). A
compiled GPU program: whether the GL object exists, the shaders added to it,
and whether it has been linked. `Destroy` gives back the empty program. -/
structure Program where
  m_handle : Bool := false
  m_shaders : List ShaderFile := []
  m_linked : Bool := false
deriving DecidableEq, Repr

/-- Modelled from the spec: class `VertexArray` (not among the sources): whether the GL
object exists and the vertex attribute configured on it (name, size, offset). -/
structure VertexArray where
  m_handle : Bool := false
  m_attrib : Option (String × Nat × Nat) := none
deriving DecidableEq, Repr

/-- Modelled from the spec: class `VertexBuffer` (not among the sources): whether the GL
object exists and the data uploaded with `glBufferData`. -/
structure VertexBuffer where
  m_handle : Bool := false
  m_data : List Int := []
deriving DecidableEq, Repr

/-- Modelled from the spec: class `Texture` (not among the sources): whether the GL object
exists and the image set with `SetData` (width, height, index of the source file). -/
structure Texture where
  m_handle : Bool := false
  m_data : Option (Nat × Nat × Nat) := none
deriving DecidableEq, Repr

/-- Modelled from the spec: class `Framebuffer` (not among the sources): the GL handle it
is attached to, if any. `Detach` forgets the handle without deleting the GL
object. -/
structure Framebuffer where
  m_handle : Option Nat := none
deriving DecidableEq, Repr

/-- A `Pango::FontDescription`: the description string and the weight set on it. -/
structure FontDescription where
  m_desc : String
  m_weightNormal : Bool
deriving DecidableEq, Repr

/-- The members of `WaveformArea` that the modelled functions read or write.
Pointers to GTK objects are natural numbers; `none` is `NULL`. Members of
class type start default-constructed (empty containers, GL wrappers without a
GL object). The enum-typed interaction members (`m_dragState`,
`m_insertionBarLocation`, `m_mouseElementPosition`) and the menu widgets are
left out. -/
structure WaveformArea where
  m_persistence : Bool
  m_channel : StreamDescriptor
  m_parent : Nat
  m_pixelsPerVolt : Rat
  m_axisLabelFont : FontDescription
  m_infoBoxFont : FontDescription
  m_cursorLabelFont : FontDescription
  m_decodeFont : FontDescription
  m_updatingContextMenu : Bool
  m_selectedChannel : StreamDescriptor
  m_dropTarget : Option Nat
  m_padding : Int
  m_overlaySpacing : Int
  m_persistenceClear : Bool
  m_firstFrame : Bool
  m_waveformRenderData : Option RenderDataId
  m_dragOverlayPosition : Int
  m_geometryDirty : Bool
  m_positionDirty : Bool
  m_plotRight : Int
  m_width : Int
  m_height : Int
  m_decodeDialog : Option Nat
  m_pendingDecode : Option Nat
  m_group : Option Nat
  m_overlays : List StreamDescriptor := []
  m_overlayRenderData : List (StreamDescriptor × RenderDataId) := []
  m_moveExistingGroupItems : List Nat := []
  m_digitalWaveformComputeProgram : Program := {}
  m_analogWaveformComputeProgram : Program := {}
  m_colormapProgram : Program := {}
  m_persistProgram : Program := {}
  m_eyeProgram : Program := {}
  m_cairoProgram : Program := {}
  m_colormapVAO : VertexArray := {}
  m_persistVAO : VertexArray := {}
  m_cairoVAO : VertexArray := {}
  m_eyeVAO : VertexArray := {}
  m_colormapVBO : VertexBuffer := {}
  m_persistVBO : VertexBuffer := {}
  m_cairoVBO : VertexBuffer := {}
  m_eyeVBO : VertexBuffer := {}
  m_cairoTexture : Texture := {}
  m_cairoTextureOver : Texture := {}
  m_eyeColorRamp : List Texture := List.replicate NUM_EYE_COLORS {}
  m_windowFramebuffer : Framebuffer := {}
deriving DecidableEq, Repr

/-- Process-wide state shared by all areas: the static flag
`WaveformArea::m_isGlewInitialized`, the reference count of every channel
object, and the heap of `WaveformRenderData` objects (the live ones, each with
the channel it was created for, and the next identity to hand out). -/
structure Globals where
  m_isGlewInitialized : Bool
  m_refcount : ChannelId → Int
  m_heapNext : RenderDataId
  m_heapLive : List (RenderDataId × StreamDescriptor)

/-- One area together with the process-wide state. -/
structure World where
  g : Globals
  a : WaveformArea

/-! ## How a call ends, and the monad of member functions -/

/-- How a call ended: a normal return, `exit(1)`, or `LogFatal`. -/
inductive Status (α : Type) where
  | returned (val : α)
  | exit1
  | logFatal
deriving DecidableEq, Repr

/-- Outcome of running a member function: how it ended, the state at that
point, and the effects performed up to that point. -/
structure Res (α : Type) where
  status : Status α
  world : World
  trace : List Event

/-- A member function: a state transformer with an effect trace that may
terminate the process. -/
def Proc (α : Type) : Type := World → Res α

/-- Normal return of a value, no effect. -/
@[simp]
def Proc.pure {α : Type} (x : α) : Proc α :=
  fun w => { status := .returned x, world := w, trace := [] }

/-- Sequencing: the second part runs only if the first returned normally. -/
@[simp]
def Proc.bind {α β : Type} (m : Proc α) (f : α → Proc β) : Proc β :=
  fun w =>
    match m w with
    | { status := .returned x, world := w1, trace := t1 } =>
        match f x w1 with
        | { status := s, world := w2, trace := t2 } =>
            { status := s, world := w2, trace := t1 ++ t2 }
    | { status := .exit1, world := w1, trace := t1 } =>
        { status := .exit1, world := w1, trace := t1 }
    | { status := .logFatal, world := w1, trace := t1 } =>
        { status := .logFatal, world := w1, trace := t1 }

instance : Monad Proc where
  pure := Proc.pure
  bind := Proc.bind

/-- Record one effect. -/
@[simp]
def emit (ev : Event) : Proc Unit :=
  fun w => { status := .returned (), world := w, trace := [ev] }

/-- The call `exit(1)`: the process ends here. -/
@[simp]
def exit1 {α : Type} : Proc α :=
  fun w => { status := .exit1, world := w, trace := [] }

/-- Modelled from the spec: `LogFatal` (the log library is not among the sources) raises a
terminal error: the process ends here and the call never returns. -/
@[simp]
def LogFatal {α : Type} : Proc α :=
  fun w => { status := .logFatal, world := w, trace := [] }

/-- Read the current state. -/
@[simp]
def getWorld : Proc World :=
  fun w => { status := .returned w, world := w, trace := [] }

/-- Update the members of the area. -/
@[simp]
def modifyArea (f : WaveformArea → WaveformArea) : Proc Unit :=
  fun w => { status := .returned (), world := { w with a := f w.a }, trace := [] }

/-- Update the process-wide state. -/
@[simp]
def modifyGlobals (f : Globals → Globals) : Proc Unit :=
  fun w => { status := .returned (), world := { w with g := f w.g }, trace := [] }

/-! ## What the platform answers -/

/-- The six extensions named in the error message of `on_realize`. -/
inductive Extension where
  | ARB_compute_shader
  | ARB_gpu_shader_int64
  | ARB_shader_storage_buffer_object
  | ARB_vertex_array_object
  | EXT_blend_equation_separate
  | EXT_framebuffer_object
deriving DecidableEq, Repr

/-- Compile-time values of the extension-name macros that `on_realize` tests
with the `GL_` spelling. The GL header is not among the sources, so the values
are a parameter of the model. -/
structure GLHeader where
  GL_EXT_framebuffer_object : Int
  GL_ARB_vertex_array_object : Int
  GL_ARB_shader_storage_buffer_object : Int
  GL_ARB_compute_shader : Int
  GL_ARB_gpu_shader_int64 : Int
deriving DecidableEq, Repr

/-- The values in `GL/glew.h`, which defines every extension-name macro
`GL_<extension>` as the integer constant 1. -/
def glew_h : GLHeader :=
  { GL_EXT_framebuffer_object := 1
    GL_ARB_vertex_array_object := 1
    GL_ARB_shader_storage_buffer_object := 1
    GL_ARB_compute_shader := 1
    GL_ARB_gpu_shader_int64 := 1 }

/-- What the platform answers during one call of `on_realize`: the header the
file was compiled against, the GTK and GLEW results, which extensions the
driver supports at run time, and which shader loads, program links and
gradient-file opens succeed. -/
structure Env where
  hdr : GLHeader
  has_error : Bool
  context_null : Bool
  glewInit_ok : Bool
  GLEW_VERSION_4_2 : Bool
  supported : Extension → Bool
  loadOk : ShaderFile → Bool
  linkOk : ProgramId → Bool
  fopenOk : Nat → Bool

/-- The run-time GLEW variable `GLEW_EXT_blend_equation_separate`. -/
def Env.GLEW_EXT_blend_equation_separate (e : Env) : Bool :=
  e.supported .EXT_blend_equation_separate

/-! ## Primitive operations -/

/-- The expression `new WaveformRenderData(ch, this)`: a new live object with the
next identity. -/
@[simp]
def newRenderData (ch : StreamDescriptor) : Proc RenderDataId :=
  fun w =>
    { status := .returned w.g.m_heapNext
      world := { w with g := { w.g with
                    m_heapNext := w.g.m_heapNext + 1
                    m_heapLive := w.g.m_heapLive ++ [(w.g.m_heapNext, ch)] } }
      trace := [.newRenderData w.g.m_heapNext ch] }

/-- The statement `delete p` on a `WaveformRenderData*`: nothing for `NULL`,
otherwise the object stops being live. -/
def deleteRenderData : Option RenderDataId → Proc Unit
  | none => Proc.pure ()
  | some id => fun w =>
    { status := .returned ()
      world := { w with g := { w.g with
                    m_heapLive := w.g.m_heapLive.filter (fun o => o.1 ≠ id) } }
      trace := [.deleteRenderData id] }

/-- Modelled from the spec: `OscilloscopeChannel::AddRef` (not among the sources), the
reference-count increment. Counts are integers, so that a decrement is always
visible. -/
@[simp]
def AddRef (c : ChannelId) : Proc Unit :=
  fun w =>
    { status := .returned ()
      world := { w with g := { w.g with
                    m_refcount := Function.update w.g.m_refcount c (w.g.m_refcount c + 1) } }
      trace := [.addRef c] }

/-- Modelled from the spec: `OscilloscopeChannel::Release` (not among the sources), the
reference-count decrement. -/
@[simp]
def Release (c : ChannelId) : Proc Unit :=
  fun w =>
    { status := .returned ()
      world := { w with g := { w.g with
                    m_refcount := Function.update w.g.m_refcount c (w.g.m_refcount c - 1) } }
      trace := [.release c] }

/-- Modelled from the spec: `Program::Add`, attaching one more shader (creating the GL
program on first use). -/
def Program.Add (p : Program) (f : ShaderFile) : Program :=
  { p with m_handle := true, m_shaders := p.m_shaders ++ [f] }

/-- Modelled from the spec: `Program::Link` when linking succeeds. -/
def Program.Link (p : Program) : Program :=
  { p with m_linked := true }

/-- Modelled from the spec: `Program::Destroy`, deleting the GL program. -/
def Program.Destroy (_p : Program) : Program := {}

/-- Modelled from the spec: `VertexArray::Destroy`. -/
def VertexArray.Destroy (_v : VertexArray) : VertexArray := {}

/-- Modelled from the spec: `VertexBuffer::Destroy`. -/
def VertexBuffer.Destroy (_v : VertexBuffer) : VertexBuffer := {}

/-- Modelled from the spec: `Texture::Destroy`. -/
def Texture.Destroy (_t : Texture) : Texture := {}

/-- Modelled from the spec: `Framebuffer::Detach`, forgetting the handle without deleting
the GL framebuffer. -/
def Framebuffer.Detach (_f : Framebuffer) : Framebuffer := { m_handle := none }

/-- The `Program` member named by `p`. -/
@[simp]
def getProgram (p : ProgramId) (a : WaveformArea) : Program :=
  match p with
  | .digitalWaveformCompute => a.m_digitalWaveformComputeProgram
  | .analogWaveformCompute => a.m_analogWaveformComputeProgram
  | .colormap => a.m_colormapProgram
  | .persist => a.m_persistProgram
  | .eye => a.m_eyeProgram
  | .cairo => a.m_cairoProgram

/-- Assign the `Program` member named by `p`. -/
@[simp]
def setProgram (p : ProgramId) (v : Program) (a : WaveformArea) : WaveformArea :=
  match p with
  | .digitalWaveformCompute => { a with m_digitalWaveformComputeProgram := v }
  | .analogWaveformCompute => { a with m_analogWaveformComputeProgram := v }
  | .colormap => { a with m_colormapProgram := v }
  | .persist => { a with m_persistProgram := v }
  | .eye => { a with m_eyeProgram := v }
  | .cairo => { a with m_cairoProgram := v }

/-- The VAO member of pass `q`. -/
@[simp]
def getVAO (q : QuadId) (a : WaveformArea) : VertexArray :=
  match q with
  | .colormap => a.m_colormapVAO
  | .persist => a.m_persistVAO
  | .cairo => a.m_cairoVAO
  | .eye => a.m_eyeVAO

/-- Assign the VAO member of pass `q`. -/
@[simp]
def setVAO (q : QuadId) (v : VertexArray) (a : WaveformArea) : WaveformArea :=
  match q with
  | .colormap => { a with m_colormapVAO := v }
  | .persist => { a with m_persistVAO := v }
  | .cairo => { a with m_cairoVAO := v }
  | .eye => { a with m_eyeVAO := v }

/-- The VBO member of pass `q`. -/
@[simp]
def getVBO (q : QuadId) (a : WaveformArea) : VertexBuffer :=
  match q with
  | .colormap => a.m_colormapVBO
  | .persist => a.m_persistVBO
  | .cairo => a.m_cairoVBO
  | .eye => a.m_eyeVBO

/-- Assign the VBO member of pass `q`. -/
@[simp]
def setVBO (q : QuadId) (v : VertexBuffer) (a : WaveformArea) : WaveformArea :=
  match q with
  | .colormap => { a with m_colormapVBO := v }
  | .persist => { a with m_persistVBO := v }
  | .cairo => { a with m_cairoVBO := v }
  | .eye => { a with m_eyeVBO := v }

/-- The call `shader.Load(path)`: the platform decides whether it succeeds. -/
@[simp]
def Load (e : Env) (f : ShaderFile) : Proc Bool :=
  fun w => { status := .returned (e.loadOk f), world := w, trace := [.load f (e.loadOk f)] }

/-- The call `program.Add(shader)` on the member named by `p`. -/
@[simp]
def progAdd (p : ProgramId) (f : ShaderFile) : Proc Unit :=
  fun w =>
    { status := .returned ()
      world := { w with a := setProgram p ((getProgram p w.a).Add f) w.a }
      trace := [.add p f] }

/-- The call `program.Link()` on the member named by `p`: the platform decides
whether it succeeds. -/
@[simp]
def progLink (e : Env) (p : ProgramId) : Proc Bool :=
  fun w =>
    { status := .returned (e.linkOk p)
      world := if e.linkOk p then { w with a := setProgram p (getProgram p w.a).Link w.a } else w
      trace := [.link p (e.linkOk p)] }

/-- The call `program.Destroy()` on the member named by `p`. -/
@[simp]
def progDestroy (p : ProgramId) : Proc Unit :=
  fun w =>
    { status := .returned ()
      world := { w with a := setProgram p (getProgram p w.a).Destroy w.a }
      trace := [.destroy (.program p)] }

/-- The call `vao.Destroy()` on the VAO of pass `q`. -/
@[simp]
def vaoDestroy (q : QuadId) : Proc Unit :=
  fun w =>
    { status := .returned ()
      world := { w with a := setVAO q (getVAO q w.a).Destroy w.a }
      trace := [.destroy (.vao q)] }

/-- The call `vbo.Destroy()` on the VBO of pass `q`. -/
@[simp]
def vboDestroy (q : QuadId) : Proc Unit :=
  fun w =>
    { status := .returned ()
      world := { w with a := setVBO q (getVBO q w.a).Destroy w.a }
      trace := [.destroy (.vbo q)] }

/-- The array `verts` of the fullscreen polygon. -/
def verts : List Int := [-1, -1, 1, -1, 1, 1, -1, 1]

/-- The block that ends each of the four quad passes: bind the VBO and upload
`verts`, bind the VAO, enable the attribute `vert` and point it at two floats
from offset 0. -/
@[simp]
def setupQuad (q : QuadId) : Proc Unit :=
  modifyArea fun a =>
    setVAO q { m_handle := true, m_attrib := some ("vert", 2, 0) }
      (setVBO q { m_handle := true, m_data := verts } a)

/-- Short-circuit `||` of two calls that return `bool`. -/
@[simp]
def orElse (x y : Proc Bool) : Proc Bool := do
  if (← x) then Proc.pure true else y

/-- Logical negation of the result of a call. -/
@[simp]
def notM (x : Proc Bool) : Proc Bool := do
  let b ← x
  Proc.pure (!b)

/-! ## `std::map` operations on `m_overlayRenderData` -/

/-- The call `m.find(key)`: the value of the first entry with that key, `none`
for `end()`. -/
def mapFind (key : StreamDescriptor) :
    List (StreamDescriptor × RenderDataId) → Option RenderDataId
  | [] => none
  | (k, v) :: rest => if k = key then some v else mapFind key rest

/-- The call `m.erase(it)` for the iterator returned by `m.find(key)`: the entry
found is removed, the others stay. -/
def mapErase (key : StreamDescriptor) :
    List (StreamDescriptor × RenderDataId) → List (StreamDescriptor × RenderDataId)
  | [] => []
  | (k, v) :: rest => if k = key then rest else (k, v) :: mapErase key rest

/-! ## Construction and destruction -/

/-- The member initializer list of `WaveformArea(StreamDescriptor, OscilloscopeWindow*)`
followed by the four `set_weight` calls. Scalar members that have no
initializer are indeterminate in C++ until `SharedCtorInit` assigns them; they
are given placeholder values here. -/
def memberInit (channel : StreamDescriptor) (parent : Nat) : WaveformArea :=
  { m_persistence := false
    m_channel := channel
    m_parent := parent
    m_pixelsPerVolt := 1
    m_axisLabelFont := { m_desc := "monospace normal 10", m_weightNormal := true }
    m_infoBoxFont := { m_desc := "sans normal 10", m_weightNormal := true }
    m_cursorLabelFont := { m_desc := "sans normal 10", m_weightNormal := true }
    m_decodeFont := { m_desc := "sans normal 10", m_weightNormal := true }
    m_updatingContextMenu := true
    m_selectedChannel := { m_channel := 0, m_stream := 0 }
    m_dropTarget := some 0
    m_padding := 0
    m_overlaySpacing := 0
    m_persistenceClear := false
    m_firstFrame := true
    m_waveformRenderData := some 0
    m_dragOverlayPosition := 1
    m_geometryDirty := true
    m_positionDirty := true
    m_plotRight := 0
    m_width := 0
    m_height := 0
    m_decodeDialog := some 0
    m_pendingDecode := some 0
    m_group := some 0 }

/-- The member initializer list of the semi-copy constructor
`WaveformArea(const WaveformArea* clone)`: the UI settings are copied, every
other member starts as in `memberInit`. -/
def memberInitClone (clone : WaveformArea) : WaveformArea :=
  { memberInit clone.m_channel clone.m_parent with
    m_persistence := clone.m_persistence
    m_channel := clone.m_channel
    m_parent := clone.m_parent
    m_pixelsPerVolt := clone.m_pixelsPerVolt
    m_axisLabelFont := clone.m_axisLabelFont
    m_infoBoxFont := clone.m_infoBoxFont
    m_cursorLabelFont := clone.m_cursorLabelFont
    m_decodeFont := clone.m_decodeFont }

/-- The function `WaveformArea::SharedCtorInit` (the GTK configuration calls and
`CreateWidgets` touch no modelled member). -/
def SharedCtorInit : Proc Unit := do
  modifyArea fun a =>
    { a with
      m_updatingContextMenu := false
      m_selectedChannel := a.m_channel
      m_dropTarget := none
      m_padding := 2
      m_overlaySpacing := 30
      m_persistenceClear := true
      m_firstFrame := false
      m_waveformRenderData := none
      m_dragOverlayPosition := 0
      m_geometryDirty := false
      m_positionDirty := false
      m_plotRight := 1
      m_width := 1
      m_height := 1
      m_decodeDialog := none
      m_pendingDecode := none }
  modifyArea fun a => { a with m_group := none }
  let w ← getWorld
  AddRef w.a.m_channel.m_channel

/-- The constructor `WaveformArea(StreamDescriptor channel, OscilloscopeWindow* parent)`
run in the process state `g`. -/
def construct (channel : StreamDescriptor) (parent : Nat) (g : Globals) : Res Unit :=
  SharedCtorInit { g := g, a := memberInit channel parent }

/-- The semi-copy constructor `WaveformArea(const WaveformArea* clone)` run in the
process state `g`. -/
def constructClone (clone : WaveformArea) (g : Globals) : Res Unit :=
  SharedCtorInit { g := g, a := memberInitClone clone }

/-- The function `WaveformArea::OnRemoveOverlay`. -/
def OnRemoveOverlay (filter : StreamDescriptor) : Proc Unit := do
  let w ← getWorld
  match mapFind filter w.a.m_overlayRenderData with
  | some id =>
      emit (.eraseOverlayRenderData filter id)
      modifyArea fun a =>
        { a with m_overlayRenderData := mapErase filter a.m_overlayRenderData }
  | none => Proc.pure ()
  Release filter.m_channel

/-- The loop `for(auto d : m_overlays) OnRemoveOverlay(d);` of the destructor. -/
def removeOverlays : List StreamDescriptor → Proc Unit
  | [] => Proc.pure ()
  | d :: rest => do
      OnRemoveOverlay d
      removeOverlays rest

/-- The statement `if(p) delete p;` on a dialog pointer. -/
def deleteDialog : Option Nat → Proc Unit
  | none => Proc.pure ()
  | some d => emit (.deleteDialog d)

/-- The loop over `m_moveExistingGroupItems` of the destructor. -/
def removeMenuItems : List Nat → Proc Unit
  | [] => Proc.pure ()
  | m :: rest => do
      emit (.removeMenuItem m)
      removeMenuItems rest

/-- The destructor `WaveformArea::~WaveformArea` (its body; the state returned is
that of the members when the body ends). -/
def destructor : Proc Unit := do
  let w ← getWorld
  Release w.a.m_channel.m_channel
  removeOverlays w.a.m_overlays
  modifyArea fun a => { a with m_overlays := [] }
  deleteDialog w.a.m_decodeDialog
  deleteDialog w.a.m_pendingDecode
  removeMenuItems w.a.m_moveExistingGroupItems
  modifyArea fun a => { a with m_moveExistingGroupItems := [] }

/-! ## Realization -/

/-- The function `WaveformArea::InitializeWaveformPass`. -/
def InitializeWaveformPass (e : Env) : Proc Unit := do
  if (← notM (Load e .waveform_compute_digital)) then
    LogFatal
  progAdd .digitalWaveformCompute .waveform_compute_digital
  if (← notM (progLink e .digitalWaveformCompute)) then
    LogFatal
  if (← notM (Load e .waveform_compute_analog)) then
    LogFatal
  progAdd .analogWaveformCompute .waveform_compute_analog
  if (← notM (progLink e .analogWaveformCompute)) then
    LogFatal

/-- The function `WaveformArea::InitializeColormapPass`. -/
def InitializeColormapPass (e : Env) : Proc Unit := do
  if (← orElse (notM (Load e .colormap_vertex)) (notM (Load e .colormap_fragment))) then
    LogFatal
  progAdd .colormap .colormap_vertex
  progAdd .colormap .colormap_fragment
  if (← notM (progLink e .colormap)) then
    LogFatal
  setupQuad .colormap

/-- The loop `for(int i=0; i<NUM_EYE_COLORS; i++)` of `InitializeEyePass`, over the
indices still to do. -/
def eyeColorRampLoop (e : Env) : List Nat → Proc Unit
  | [] => Proc.pure ()
  | i :: rest => do
      emit (.fopen i (e.fopenOk i))
      if !e.fopenOk i then
        LogFatal
      modifyArea fun a =>
        { a with m_eyeColorRamp :=
            a.m_eyeColorRamp.set i { m_handle := true, m_data := some (256, 1, i) } }
      eyeColorRampLoop e rest

/-- The function `WaveformArea::InitializeEyePass`. -/
def InitializeEyePass (e : Env) : Proc Unit := do
  if (← orElse (notM (Load e .eye_vertex)) (notM (Load e .eye_fragment))) then
    LogFatal
  progAdd .eye .eye_vertex
  progAdd .eye .eye_fragment
  if (← notM (progLink e .eye)) then
    LogFatal
  setupQuad .eye
  eyeColorRampLoop e (List.range NUM_EYE_COLORS)

/-- The function `WaveformArea::InitializePersistencePass`. -/
def InitializePersistencePass (e : Env) : Proc Unit := do
  if (← orElse (notM (Load e .persist_vertex)) (notM (Load e .persist_fragment))) then
    LogFatal
  progAdd .persist .persist_vertex
  progAdd .persist .persist_fragment
  if (← notM (progLink e .persist)) then
    LogFatal
  setupQuad .persist

/-- The function `WaveformArea::InitializeCairoPass`. -/
def InitializeCairoPass (e : Env) : Proc Unit := do
  if (← orElse (notM (Load e .cairo_vertex)) (notM (Load e .cairo_fragment))) then
    LogFatal
  progAdd .cairo .cairo_vertex
  progAdd .cairo .cairo_fragment
  if (← notM (progLink e .cairo)) then
    LogFatal
  setupQuad .cairo

/-- The block of `on_realize` guarded by `if(!m_isGlewInitialized)`: the GL error
check, the context check, `glewInit`, the OpenGL 4.2 check and the extension
check, each ending the process when it fails, then the assignment of the flag.
In the extension test only `GLEW_EXT_blend_equation_separate` is a run-time
variable; the five names spelled `GL_...` are the header macros. When
`has_error()` holds, `throw_if_error()` throws the `Glib::Error` that the
handler catches, so that branch ends in `exit(1)`; the `LogDebug` lines have
no modelled effect. -/
def checkCapabilities (e : Env) : Proc Unit := do
  emit (.check .gl_error)
  if e.has_error then
    emit .messageDialog
    exit1
  emit (.check .context)
  if e.context_null then
    LogFatal
  emit (.check .glew_init)
  if !e.glewInit_ok then
    emit .messageDialog
    exit1
  emit (.check .gl_4_2)
  if !e.GLEW_VERSION_4_2 then
    emit .messageDialog
    exit1
  emit (.check .extensions)
  if (!e.GLEW_EXT_blend_equation_separate ||
      e.hdr.GL_EXT_framebuffer_object == 0 ||
      e.hdr.GL_ARB_vertex_array_object == 0 ||
      e.hdr.GL_ARB_shader_storage_buffer_object == 0 ||
      e.hdr.GL_ARB_compute_shader == 0 ||
      e.hdr.GL_ARB_gpu_shader_int64 == 0) then
    emit .messageDialog
    exit1
  modifyGlobals fun g => { g with m_isGlewInitialized := true }

/-- The function `WaveformArea::on_realize`. -/
def on_realize (e : Env) : Proc Unit := do
  emit .gtk_on_realize
  emit .make_current
  let w ← getWorld
  if !w.g.m_isGlewInitialized then
    checkCapabilities e
  modifyArea fun a => { a with m_firstFrame := true }
  let w ← getWorld
  let p ← newRenderData w.a.m_channel
  modifyArea fun a => { a with m_waveformRenderData := some p }
  InitializeWaveformPass e
  InitializeColormapPass e
  InitializePersistencePass e
  InitializeCairoPass e
  InitializeEyePass e

/-! ## Unrealization -/

/-- The loop `for(auto& e : m_eyeColorRamp) e.Destroy();`. -/
@[simp]
def eyeColorRampDestroy : Proc Unit :=
  fun w =>
    { status := .returned ()
      world := { w with a := { w.a with
                    m_eyeColorRamp := w.a.m_eyeColorRamp.map Texture.Destroy } }
      trace := (List.range w.a.m_eyeColorRamp.length).map
                 fun i => Event.destroy (.eyeColorRamp i) }

/-- The loop `for(auto it : m_overlayRenderData) delete it.second;`. -/
def deleteOverlayRenderData : List (StreamDescriptor × RenderDataId) → Proc Unit
  | [] => Proc.pure ()
  | it :: rest => do
      deleteRenderData (some it.2)
      deleteOverlayRenderData rest

/-- The function `WaveformArea::CleanupGLHandles`. -/
def CleanupGLHandles : Proc Unit := do
  progDestroy .digitalWaveformCompute
  progDestroy .analogWaveformCompute
  progDestroy .colormap
  progDestroy .persist
  progDestroy .eye
  progDestroy .cairo
  vaoDestroy .colormap
  vaoDestroy .persist
  vaoDestroy .cairo
  vaoDestroy .eye
  vboDestroy .colormap
  vboDestroy .persist
  vboDestroy .cairo
  vboDestroy .eye
  emit (.destroy .cairoTexture)
  modifyArea fun a => { a with m_cairoTexture := a.m_cairoTexture.Destroy }
  emit (.destroy .cairoTextureOver)
  modifyArea fun a => { a with m_cairoTextureOver := a.m_cairoTextureOver.Destroy }
  eyeColorRampDestroy
  let w ← getWorld
  deleteRenderData w.a.m_waveformRenderData
  modifyArea fun a => { a with m_waveformRenderData := none }
  let w ← getWorld
  deleteOverlayRenderData w.a.m_overlayRenderData
  modifyArea fun a => { a with m_overlayRenderData := [] }
  emit (.detach .windowFramebuffer)
  modifyArea fun a => { a with m_windowFramebuffer := a.m_windowFramebuffer.Detach }

/-- The function `WaveformArea::on_unrealize`. -/
def on_unrealize : Proc Unit := do
  emit .make_current
  CleanupGLHandles
  emit .gtk_on_unrealize

/-! ## Vocabulary of the statements -/

/-- The area holds the `WaveformRenderData` object `id`: it is the primary
render data or the value of an entry of the overlay store. -/
def WaveformArea.holds (a : WaveformArea) (id : RenderDataId) : Prop :=
  a.m_waveformRenderData = some id ∨ id ∈ a.m_overlayRenderData.map Prod.snd

/-- The object `id` is live (allocated and not deleted). -/
def Globals.isLive (g : Globals) (id : RenderDataId) : Prop :=
  id ∈ g.m_heapLive.map Prod.fst

/-- Well-formed heap: every live object and every object the area points to was
handed out by an earlier `new`. -/
def World.heapWF (w : World) : Prop :=
  (∀ id, w.g.isLive id → id < w.g.m_heapNext) ∧ (∀ id, w.a.holds id → id < w.g.m_heapNext)

/-- All start-up checks of `checkCapabilities` pass. -/
def Env.capsOk (e : Env) : Prop :=
  e.has_error = false ∧ e.context_null = false ∧ e.glewInit_ok = true ∧
  e.GLEW_VERSION_4_2 = true ∧ e.GLEW_EXT_blend_equation_separate = true ∧
  e.hdr.GL_EXT_framebuffer_object ≠ 0 ∧ e.hdr.GL_ARB_vertex_array_object ≠ 0 ∧
  e.hdr.GL_ARB_shader_storage_buffer_object ≠ 0 ∧ e.hdr.GL_ARB_compute_shader ≠ 0 ∧
  e.hdr.GL_ARB_gpu_shader_int64 ≠ 0

/-- The guarded block of `on_realize` lets the call through: the flag is already
set, or every start-up check passes. -/
def gateOk (e : Env) (w : World) : Prop :=
  w.g.m_isGlewInitialized = true ∨ e.capsOk

/-- Every shader load, every program link and every gradient-file open succeeds. -/
def Env.assetsOk (e : Env) : Prop :=
  (∀ f, e.loadOk f = true) ∧ (∀ p, e.linkOk p = true) ∧
  (∀ i, i < NUM_EYE_COLORS → e.fopenOk i = true)

/-- Closed form of the members after a successful `on_realize` that created the
render data `id` (proved equal to the result of `on_realize` in
`on_realize_ok`). -/
def realizedArea (id : RenderDataId) (a : WaveformArea) : WaveformArea :=
  { a with
    m_firstFrame := true
    m_waveformRenderData := some id
    m_digitalWaveformComputeProgram :=
      (a.m_digitalWaveformComputeProgram.Add .waveform_compute_digital).Link
    m_analogWaveformComputeProgram :=
      (a.m_analogWaveformComputeProgram.Add .waveform_compute_analog).Link
    m_colormapProgram := ((a.m_colormapProgram.Add .colormap_vertex).Add .colormap_fragment).Link
    m_persistProgram := ((a.m_persistProgram.Add .persist_vertex).Add .persist_fragment).Link
    m_cairoProgram := ((a.m_cairoProgram.Add .cairo_vertex).Add .cairo_fragment).Link
    m_eyeProgram := ((a.m_eyeProgram.Add .eye_vertex).Add .eye_fragment).Link
    m_colormapVAO := { m_handle := true, m_attrib := some ("vert", 2, 0) }
    m_persistVAO := { m_handle := true, m_attrib := some ("vert", 2, 0) }
    m_cairoVAO := { m_handle := true, m_attrib := some ("vert", 2, 0) }
    m_eyeVAO := { m_handle := true, m_attrib := some ("vert", 2, 0) }
    m_colormapVBO := { m_handle := true, m_data := verts }
    m_persistVBO := { m_handle := true, m_data := verts }
    m_cairoVBO := { m_handle := true, m_data := verts }
    m_eyeVBO := { m_handle := true, m_data := verts }
    m_eyeColorRamp :=
      (((((a.m_eyeColorRamp.set 0 { m_handle := true, m_data := some (256, 1, 0) }).set 1
        { m_handle := true, m_data := some (256, 1, 1) }).set 2
        { m_handle := true, m_data := some (256, 1, 2) }).set 3
        { m_handle := true, m_data := some (256, 1, 3) }).set 4
        { m_handle := true, m_data := some (256, 1, 4) }).set 5
        { m_handle := true, m_data := some (256, 1, 5) } }

/-- Closed form of the state after a successful `on_realize`. -/
def realizedWorld (w : World) : World :=
  { g := { w.g with
        m_isGlewInitialized := true
        m_heapNext := w.g.m_heapNext + 1
        m_heapLive := w.g.m_heapLive ++ [(w.g.m_heapNext, w.a.m_channel)] }
    a := realizedArea w.g.m_heapNext w.a }

/-- The effects of the five start-up checks when all of them pass. -/
def checkTrace : List Event :=
  [.check .gl_error, .check .context, .check .glew_init, .check .gl_4_2, .check .extensions]

/-- The effects of the five `Initialize*Pass` calls when everything succeeds. -/
def passTrace : List Event :=
  [ .load .waveform_compute_digital true,
    .add .digitalWaveformCompute .waveform_compute_digital,
    .link .digitalWaveformCompute true,
    .load .waveform_compute_analog true,
    .add .analogWaveformCompute .waveform_compute_analog,
    .link .analogWaveformCompute true,
    .load .colormap_vertex true, .load .colormap_fragment true,
    .add .colormap .colormap_vertex, .add .colormap .colormap_fragment,
    .link .colormap true,
    .load .persist_vertex true, .load .persist_fragment true,
    .add .persist .persist_vertex, .add .persist .persist_fragment,
    .link .persist true,
    .load .cairo_vertex true, .load .cairo_fragment true,
    .add .cairo .cairo_vertex, .add .cairo .cairo_fragment,
    .link .cairo true,
    .load .eye_vertex true, .load .eye_fragment true,
    .add .eye .eye_vertex, .add .eye .eye_fragment,
    .link .eye true,
    .fopen 0 true, .fopen 1 true, .fopen 2 true, .fopen 3 true, .fopen 4 true, .fopen 5 true ]

/-- Closed form of the effects of a successful `on_realize`. -/
def realizeTrace (w : World) : List Event :=
  [.gtk_on_realize, .make_current] ++
    (if w.g.m_isGlewInitialized then [] else checkTrace) ++
    [.newRenderData w.g.m_heapNext w.a.m_channel] ++ passTrace

/-- Closed form of the members after `CleanupGLHandles` (proved equal to its
result in `CleanupGLHandles_eq`). -/
def cleanedArea (a : WaveformArea) : WaveformArea :=
  { a with
    m_digitalWaveformComputeProgram := {}
    m_analogWaveformComputeProgram := {}
    m_colormapProgram := {}
    m_persistProgram := {}
    m_eyeProgram := {}
    m_cairoProgram := {}
    m_colormapVAO := {}
    m_persistVAO := {}
    m_cairoVAO := {}
    m_eyeVAO := {}
    m_colormapVBO := {}
    m_persistVBO := {}
    m_cairoVBO := {}
    m_eyeVBO := {}
    m_cairoTexture := {}
    m_cairoTextureOver := {}
    m_eyeColorRamp := a.m_eyeColorRamp.map Texture.Destroy
    m_waveformRenderData := none
    m_overlayRenderData := []
    m_windowFramebuffer := { m_handle := none } }

/-- The render data objects that `CleanupGLHandles` deletes, in order. -/
def heldIds (a : WaveformArea) : List RenderDataId :=
  a.m_waveformRenderData.toList ++ a.m_overlayRenderData.map Prod.snd

/-- Closed form of the state after `CleanupGLHandles`. -/
def cleanedWorld (w : World) : World :=
  { g := { w.g with
        m_heapLive := w.g.m_heapLive.filter (fun o => o.1 ∉ heldIds w.a) }
    a := cleanedArea w.a }

/-- Closed form of the effects of `CleanupGLHandles`. -/
def cleanupTrace (a : WaveformArea) : List Event :=
  [ .destroy (.program .digitalWaveformCompute), .destroy (.program .analogWaveformCompute),
    .destroy (.program .colormap), .destroy (.program .persist),
    .destroy (.program .eye), .destroy (.program .cairo),
    .destroy (.vao .colormap), .destroy (.vao .persist),
    .destroy (.vao .cairo), .destroy (.vao .eye),
    .destroy (.vbo .colormap), .destroy (.vbo .persist),
    .destroy (.vbo .cairo), .destroy (.vbo .eye),
    .destroy .cairoTexture, .destroy .cairoTextureOver ] ++
    (List.range a.m_eyeColorRamp.length).map (fun i => Event.destroy (.eyeColorRamp i)) ++
    (heldIds a).map Event.deleteRenderData ++
    [.detach .windowFramebuffer]

/-! ## Example states -/

/-- A process state before any area exists: GLEW not initialized, every
reference count zero, empty heap. -/
def g0 : Globals :=
  { m_isGlewInitialized := false, m_refcount := fun _ => 0, m_heapNext := 0, m_heapLive := [] }

/-- A platform on which everything succeeds. -/
def envOk : Env :=
  { hdr := glew_h, has_error := false, context_null := false, glewInit_ok := true,
    GLEW_VERSION_4_2 := true, supported := fun _ => true, loadOk := fun _ => true,
    linkOk := fun _ => true, fopenOk := fun _ => true }

/-- The channel of the example area. -/
def ch7 : StreamDescriptor := { m_channel := 7, m_stream := 0 }

/-- An area just constructed on channel 7 in the process state `g0`. -/
def w0 : World := (construct ch7 1 g0).world


/-- A second channel, used as an overlay in the examples. -/
def ch8 : StreamDescriptor := { m_channel := 8, m_stream := 0 }

/-- A third channel, used as an overlay in the examples. -/
def ch9 : StreamDescriptor := { m_channel := 9, m_stream := 0 }

/-- A realized area on channel 7 with a primary render data object (0) and two
overlay render data entries (objects 1 and 2, for channels 8 and 9). -/
def wTwoOverlays : World :=
  { g := { m_isGlewInitialized := true
           m_refcount := fun c => if c = 7 ∨ c = 8 ∨ c = 9 then 1 else 0
           m_heapNext := 3
           m_heapLive := [(0, ch7), (1, ch8), (2, ch9)] }
    a := { realizedArea 0 w0.a with
           m_overlays := [ch8, ch9]
           m_overlayRenderData := [(ch8, 1), (ch9, 2)] } }

/-- An area on channel 7 to which the overlay `ch8` has been added (one reference
taken on channel 8) but for which no overlay render data exists yet. -/
def wOverlayPending : World :=
  { g := { g0 with m_refcount := fun c => if c = 7 ∨ c = 8 then 1 else 0 }
    a := { w0.a with m_overlays := [ch8] } }


/-- The event is the evaluation of a start-up check. -/
def Event.isCheck : Event → Bool
  | .check _ => true
  | _ => false

/-- The event is a shader load or a program link. -/
def Event.isLoadOrLink : Event → Bool
  | .load _ _ => true
  | .link _ _ => true
  | _ => false

/-- The event belongs to the `Initialize*Pass` functions: a shader load, a shader
added to a program, a program link or a gradient-file open. -/
def Event.isAsset : Event → Bool
  | .load _ _ => true
  | .add _ _ => true
  | .link _ _ => true
  | .fopen _ _ => true
  | _ => false

/-- The event is a load, link or gradient-file open that failed. -/
def Event.isFailure : Event → Bool
  | .load _ false => true
  | .link _ false => true
  | .fopen _ false => true
  | _ => false


/-- The state after a successful `InitializeWaveformPass`. -/
def waveformPassWorld (w : World) : World :=
  { w with a := { w.a with
      m_digitalWaveformComputeProgram :=
        (w.a.m_digitalWaveformComputeProgram.Add .waveform_compute_digital).Link
      m_analogWaveformComputeProgram :=
        (w.a.m_analogWaveformComputeProgram.Add .waveform_compute_analog).Link } }

/-- The state after a successful `InitializeColormapPass`. -/
def colormapPassWorld (w : World) : World :=
  { w with a := { w.a with
      m_colormapProgram := ((w.a.m_colormapProgram.Add .colormap_vertex).Add .colormap_fragment).Link
      m_colormapVAO := { m_handle := true, m_attrib := some ("vert", 2, 0) }
      m_colormapVBO := { m_handle := true, m_data := verts } } }

/-- The state after a successful `InitializePersistencePass`. -/
def persistencePassWorld (w : World) : World :=
  { w with a := { w.a with
      m_persistProgram := ((w.a.m_persistProgram.Add .persist_vertex).Add .persist_fragment).Link
      m_persistVAO := { m_handle := true, m_attrib := some ("vert", 2, 0) }
      m_persistVBO := { m_handle := true, m_data := verts } } }

/-- The state after a successful `InitializeCairoPass`. -/
def cairoPassWorld (w : World) : World :=
  { w with a := { w.a with
      m_cairoProgram := ((w.a.m_cairoProgram.Add .cairo_vertex).Add .cairo_fragment).Link
      m_cairoVAO := { m_handle := true, m_attrib := some ("vert", 2, 0) }
      m_cairoVBO := { m_handle := true, m_data := verts } } }

/-- The state after a successful `InitializeEyePass`. -/
def eyePassWorld (w : World) : World :=
  { w with a := { w.a with
      m_eyeProgram := ((w.a.m_eyeProgram.Add .eye_vertex).Add .eye_fragment).Link
      m_eyeVAO := { m_handle := true, m_attrib := some ("vert", 2, 0) }
      m_eyeVBO := { m_handle := true, m_data := verts }
      m_eyeColorRamp :=
        (((((w.a.m_eyeColorRamp.set 0 { m_handle := true, m_data := some (256, 1, 0) }).set 1
          { m_handle := true, m_data := some (256, 1, 1) }).set 2
          { m_handle := true, m_data := some (256, 1, 2) }).set 3
          { m_handle := true, m_data := some (256, 1, 3) }).set 4
          { m_handle := true, m_data := some (256, 1, 4) }).set 5
          { m_handle := true, m_data := some (256, 1, 5) } } }

/-- The first part of `on_realize`, up to and including the creation of the
primary render data (used to state lemmas; `on_realize_split` proves that
`on_realize` is this part followed by `initializePasses`). -/
def realizeHead (e : Env) : Proc Unit := do
  emit .gtk_on_realize
  emit .make_current
  let w ← getWorld
  if !w.g.m_isGlewInitialized then
    checkCapabilities e
  modifyArea fun a => { a with m_firstFrame := true }
  let w ← getWorld
  let p ← newRenderData w.a.m_channel
  modifyArea fun a => { a with m_waveformRenderData := some p }

/-- The second part of `on_realize`: the five `Initialize*Pass` calls. -/
def initializePasses (e : Env) : Proc Unit := do
  InitializeWaveformPass e
  InitializeColormapPass e
  InitializePersistencePass e
  InitializeCairoPass e
  InitializeEyePass e

/-- The state after a successful `realizeHead`. -/
def headWorld (w : World) : World :=
  { g := { w.g with
        m_isGlewInitialized := true
        m_heapNext := w.g.m_heapNext + 1
        m_heapLive := w.g.m_heapLive ++ [(w.g.m_heapNext, w.a.m_channel)] }
    a := { w.a with m_firstFrame := true, m_waveformRenderData := some w.g.m_heapNext } }

/-- Summary of a block of loads, links and opens: when its conditions `ok` hold it
returns normally with state `f w` and trace `tr`; otherwise it ends in
`LogFatal`; either way its trace has only load, add, link and open events. -/
def PassSpec (p : Proc Unit) (ok : Prop) (f : World → World) (tr : List Event) : Prop :=
  (∀ ev ∈ tr, ev.isAsset = true) ∧
  ∀ w, (ok ∧ p w = { status := .returned (), world := f w, trace := tr }) ∨
    (¬ ok ∧ (p w).status = .logFatal ∧ ∀ ev ∈ (p w).trace, ev.isAsset = true)


/-- A platform on which everything succeeds and OpenGL 4.2 is supported, but the
driver does not report `GL_EXT_framebuffer_object` at run time. -/
def envNoFramebufferExt : Env :=
  { envOk with supported := fun x => decide (x ≠ .EXT_framebuffer_object) }

/-- A constructed area whose pending persistence clear has been consumed
(`m_persistenceClear` is false, as after a rendered frame). -/
def wCleared : World :=
  { w0 with a := { w0.a with m_persistenceClear := false } }

/-- The shaders that one `on_realize` adds to each program, in order. -/
def passShaders : ProgramId → List ShaderFile
  | .digitalWaveformCompute => [.waveform_compute_digital]
  | .analogWaveformCompute => [.waveform_compute_analog]
  | .colormap => [.colormap_vertex, .colormap_fragment]
  | .persist => [.persist_vertex, .persist_fragment]
  | .eye => [.eye_vertex, .eye_fragment]
  | .cairo => [.cairo_vertex, .cairo_fragment]


/-! ## Several areas in one process -/

/-- A process with several areas: the process-wide state and the members of
each area, by index. -/
structure Process where
  g : Globals
  areas : Nat → WaveformArea

/-- A sequence of `on_realize` calls in one process, each on the area with the
given index and with the given platform answers. The result is the trace of
every call that was made, in order; no call is made after one that ended the
process. -/
def realizeCalls : Process → List (Nat × Env) → List (List Event)
  | _, [] => []
  | p, (i, e) :: rest =>
    (on_realize e { g := p.g, a := p.areas i }).trace ::
      (match (on_realize e { g := p.g, a := p.areas i }).status with
        | .returned _ =>
            realizeCalls
              { g := (on_realize e { g := p.g, a := p.areas i }).world.g
                areas := Function.update p.areas i
                  (on_realize e { g := p.g, a := p.areas i }).world.a }
              rest
        | _ => [])

/-- A process with two areas, on channels 7 and 8, before any call. -/
def process0 : Process :=
  { g := g0, areas := fun i => if i = 0 then w0.a else (construct ch8 1 g0).world.a }

/-! ## The life of one area -/

/-- The calls made on an area after its construction. -/
inductive Step where
  | realize (e : Env)
  | unrealize
  | removeOverlay (filter : StreamDescriptor)
  | destroy

/-- The state after a sequence of calls on the area. There is no state when
`on_realize` ended the process, nor when a call follows the destructor: the
destructor ends the life of the object. -/
def runSteps : World → List Step → Option World
  | w, [] => some w
  | w, .realize e :: rest =>
    match (on_realize e w).status with
    | .returned _ => runSteps (on_realize e w).world rest
    | _ => none
  | w, .unrealize :: rest => runSteps (on_unrealize w).world rest
  | w, .removeOverlay filter :: rest => runSteps (OnRemoveOverlay filter w).world rest
  | w, .destroy :: rest =>
    match rest with
    | [] => some (destructor w).world
    | _ :: _ => none

/-- The area holds a render data object for channel `c`: the primary render data,
which `on_realize` creates for `m_channel`, or an entry of `m_overlayRenderData`
whose key is a descriptor on `c`. -/
def WaveformArea.holdsRenderDataFor (a : WaveformArea) (c : ChannelId) : Prop :=
  (a.m_waveformRenderData ≠ none ∧ c = a.m_channel.m_channel) ∨
  ∃ d id, (d, id) ∈ a.m_overlayRenderData ∧ d.m_channel = c

/-- How many entries of the overlay store have a key on channel `c`. -/
def entriesOn (c : ChannelId) (m : List (StreamDescriptor × RenderDataId)) : Nat :=
  (m.map fun kv => kv.1.m_channel).count c

/-- The references of the area on channel `c`: the reference count of `c`, which
only `AddRef` and `Release` change, less the references `ext c` that the rest of
the program holds on `c`. -/
def ownRefs (ext : ChannelId → Int) (w : World) (c : ChannelId) : Int :=
  w.g.m_refcount c - ext c

/-- The references on channel `c` that the members of a constructed area stand for:
the one of the constructor when `c` is the channel of `m_channel`, and one for
each entry of the overlay store on `c`. -/
def neededRefs (a : WaveformArea) (c : ChannelId) : Int :=
  (if c = a.m_channel.m_channel then 1 else 0) + entriesOn c a.m_overlayRenderData

/-- On every channel the area holds at least the references its members stand
for. -/
def refsCover (ext : ChannelId → Int) (w : World) : Prop :=
  ∀ c, neededRefs w.a c ≤ ownRefs ext w c

/-- The callers keep to the order of use along a sequence of calls:
`OnRemoveOverlay(filter)` is called only when the area has a reference to give
back for it, that is, `filter` has an entry in the overlay store or the area
holds a reference on the channel of `filter` beyond those its members stand
for; and the destructor runs only on an area that holds no render data. -/
def orderlyRun (ext : ChannelId → Int) : World → List Step → Prop
  | _, [] => True
  | w, .realize e :: rest => orderlyRun ext (on_realize e w).world rest
  | w, .unrealize :: rest => orderlyRun ext (on_unrealize w).world rest
  | w, .removeOverlay filter :: rest =>
    (mapFind filter w.a.m_overlayRenderData ≠ none ∨
      neededRefs w.a filter.m_channel < ownRefs ext w filter.m_channel) ∧
    orderlyRun ext (OnRemoveOverlay filter w).world rest
  | w, .destroy :: _ => ∀ id, ¬ w.a.holds id

/-- The area with two overlays of the examples after `OnRemoveOverlay(ch8)`. -/
def wTwoOverlaysLessCh8 : World := (OnRemoveOverlay ch8 wTwoOverlays).world


/-- Closed form of the state after `OnRemoveOverlay(filter)`: the entry of `filter`,
if there is one, is erased from the overlay store and one reference on the
channel of `filter` is released. -/
def removeOverlayWorld (filter : StreamDescriptor) (w : World) : World :=
  { g := { w.g with
        m_refcount := Function.update w.g.m_refcount filter.m_channel
          (w.g.m_refcount filter.m_channel - 1) }
    a := { w.a with m_overlayRenderData := mapErase filter w.a.m_overlayRenderData } }

/-- Closed form of the effects of `OnRemoveOverlay(filter)`. -/
def removeOverlayTrace (filter : StreamDescriptor) (w : World) : List Event :=
  (match mapFind filter w.a.m_overlayRenderData with
    | some id => [Event.eraseOverlayRenderData filter id]
    | none => []) ++ [.release filter.m_channel]

/-- Closed form of the state after the destructor's loop over `m_overlays`. -/
def removeOverlaysWorld : List StreamDescriptor → World → World
  | [], w => w
  | d :: rest, w => removeOverlaysWorld rest (removeOverlayWorld d w)

/-- Closed form of the effects of the destructor's loop over `m_overlays`. -/
def removeOverlaysTrace : List StreamDescriptor → World → List Event
  | [], _ => []
  | d :: rest, w => removeOverlayTrace d w ++ removeOverlaysTrace rest (removeOverlayWorld d w)


/-! ## Vocabulary of the statements on overlays and teardown -/

/-- The invariant of `std::map` on the list that stands for `m_overlayRenderData`:
no two entries have the same key. -/
def uniqueKeys (m : List (StreamDescriptor × RenderDataId)) : Prop :=
  (m.map Prod.fst).Nodup

/-- The event is a call of `Release` on a channel. -/
def Event.isRelease : Event → Bool
  | .release _ => true
  | _ => false

/-- How many descriptors of the list are on channel `c`. -/
def overlaysOn (c : ChannelId) (l : List StreamDescriptor) : Nat :=
  (l.map StreamDescriptor.m_channel).count c

/-- A realized area on channel 7 whose overlay list names the overlay `ch8` twice
and the overlay `ch9` once, with render data for both overlays. -/
def wRepeatedOverlay : World :=
  { wTwoOverlays with
    g := { wTwoOverlays.g with m_refcount := fun c => if c = 8 then 2 else 1 }
    a := { wTwoOverlays.a with m_overlays := [ch8, ch9, ch8] } }


/-! ## Lemmas: closed forms of the member functions -/

/-- The monad's sequencing is `Proc.bind`. -/
@[simp]
theorem bind_eq_procBind {α β : Type} (m : Proc α) (f : α → Proc β) :
    m >>= f = Proc.bind m f := rfl

/-- The monad's return is `Proc.pure`. -/
@[simp]
theorem pure_eq_procPure {α : Type} (x : α) : (pure x : Proc α) = Proc.pure x := rfl

/-- The overlay delete loop removes exactly the listed objects from the heap. -/
theorem deleteOverlayRenderData_eq (l : List (StreamDescriptor × RenderDataId)) (w : World) :
    deleteOverlayRenderData l w =
      { status := .returned ()
        world := { w with g := { w.g with
                      m_heapLive := w.g.m_heapLive.filter (fun o => o.1 ∉ l.map Prod.snd) } }
        trace := l.map (fun it => Event.deleteRenderData it.2) } := by
  induction l generalizing w with
  | nil => simp [deleteOverlayRenderData]
  | cons it rest ih =>
    simp [deleteOverlayRenderData, deleteRenderData, ih, List.filter_filter]
    apply List.filter_congr
    intro o _
    by_cases h1 : o.1 = it.2 <;> by_cases h2 : o.1 ∈ List.map Prod.snd rest <;> simp [h1, h2]

/-- The statement `delete p` removes the object `p` points to, if any, from the heap. -/
@[simp]
theorem deleteRenderData_eq (p : Option RenderDataId) (w : World) :
    deleteRenderData p w =
      { status := .returned ()
        world := { w with g := { w.g with
                      m_heapLive := w.g.m_heapLive.filter (fun o => o.1 ∉ p.toList) } }
        trace := p.toList.map Event.deleteRenderData } := by
  cases p <;> simp [deleteRenderData]

/-- Closed form of `CleanupGLHandles`: it always returns normally. -/
theorem CleanupGLHandles_eq (w : World) :
    CleanupGLHandles w =
      { status := .returned (), world := cleanedWorld w, trace := cleanupTrace w.a } := by
  simp [CleanupGLHandles, deleteOverlayRenderData_eq, deleteRenderData_eq, cleanedWorld,
    cleanedArea, cleanupTrace, heldIds, Program.Destroy, VertexArray.Destroy,
    VertexBuffer.Destroy, Texture.Destroy, Framebuffer.Detach, List.filter_filter]
  apply List.filter_congr
  intro o _
  by_cases h1 : o.1 ∈ w.a.m_waveformRenderData.toList <;>
    by_cases h2 : o.1 ∈ List.map Prod.snd w.a.m_overlayRenderData <;>
    simp [h1, h2]
  all_goals (simp at h1 h2; simp [h1, h2])


/-! ## Lemmas: the parts of `on_realize` -/

/-- Two blocks in sequence behave as one block. -/
theorem PassSpec.seq {p q : Proc Unit} {ok1 ok2 : Prop} {f1 f2 : World → World}
    {t1 t2 : List Event} (hp : PassSpec p ok1 f1 t1) (hq : PassSpec q ok2 f2 t2) :
    PassSpec (p >>= fun _ => q) (ok1 ∧ ok2) (fun w => f2 (f1 w)) (t1 ++ t2) := by
  refine ⟨?_, fun w => ?_⟩
  · intro ev hev
    rcases List.mem_append.1 hev with h | h
    · exact hp.1 ev h
    · exact hq.1 ev h
  · rcases hp.2 w with ⟨h1, e1⟩ | ⟨h1, s1, a1⟩
    · rcases hq.2 (f1 w) with ⟨h2, e2⟩ | ⟨h2, s2, a2⟩
      · left
        refine ⟨⟨h1, h2⟩, ?_⟩
        simp [e1, e2]
      · right
        refine ⟨fun h => h2 h.2, ?_⟩
        cases hr : q (f1 w) with
        | mk s w2 tr2 =>
          rw [hr] at s2 a2
          simp only at s2 a2
          subst s2
          simp only [bind_eq_procBind, Proc.bind, e1, hr, true_and]
          intro ev hev
          rcases List.mem_append.1 hev with h | h
          · exact hp.1 ev h
          · exact a2 ev h
    · right
      refine ⟨fun h => h1 h.1, ?_⟩
      cases hr : p w with
      | mk s w1 tr1 =>
        rw [hr] at s1 a1
        simp only at s1 a1
        subst s1
        simp only [bind_eq_procBind, Proc.bind, hr, true_and]
        exact a1

/-- A summary may be restated with equivalent conditions and an equal trace. -/
theorem PassSpec.congr {p : Proc Unit} {ok ok' : Prop} {f : World → World}
    {tr tr' : List Event} (h : PassSpec p ok f tr) (hok : ok' ↔ ok) (htr : tr' = tr) :
    PassSpec p ok' f tr' := by
  subst htr
  refine ⟨h.1, fun w => ?_⟩
  rcases h.2 w with ⟨h1, e1⟩ | ⟨h1, s1, a1⟩
  · exact Or.inl ⟨hok.2 h1, e1⟩
  · exact Or.inr ⟨fun h' => h1 (hok.1 h'), s1, a1⟩

/-- Summary of `InitializeWaveformPass`. -/
theorem InitializeWaveformPass_spec (e : Env) :
    PassSpec (InitializeWaveformPass e)
      (e.loadOk .waveform_compute_digital = true ∧
       e.linkOk .digitalWaveformCompute = true ∧
       e.loadOk .waveform_compute_analog = true ∧
       e.linkOk .analogWaveformCompute = true)
      waveformPassWorld
      [ .load .waveform_compute_digital true,
       .add .digitalWaveformCompute .waveform_compute_digital,
       .link .digitalWaveformCompute true,
       .load .waveform_compute_analog true,
       .add .analogWaveformCompute .waveform_compute_analog,
       .link .analogWaveformCompute true ] := by
  refine ⟨by simp [Event.isAsset], fun w => ?_⟩
  cases a1 : e.loadOk .waveform_compute_digital
  · right
    simp [InitializeWaveformPass, Event.isAsset, a1]
  cases a2 : e.linkOk .digitalWaveformCompute
  · right
    simp [InitializeWaveformPass, Event.isAsset, a1, a2]
  cases a3 : e.loadOk .waveform_compute_analog
  · right
    simp [InitializeWaveformPass, Event.isAsset, a1, a2, a3]
  cases a4 : e.linkOk .analogWaveformCompute
  · right
    simp [InitializeWaveformPass, Event.isAsset, a1, a2, a3, a4]
  left
  simp [InitializeWaveformPass, waveformPassWorld, a1, a2, a3, a4]

/-- Summary of `InitializeColormapPass`. -/
theorem InitializeColormapPass_spec (e : Env) :
    PassSpec (InitializeColormapPass e)
      (e.loadOk .colormap_vertex = true ∧
       e.loadOk .colormap_fragment = true ∧
       e.linkOk .colormap = true)
      colormapPassWorld
      [ .load .colormap_vertex true, .load .colormap_fragment true,
       .add .colormap .colormap_vertex, .add .colormap .colormap_fragment, .link .colormap true ] := by
  refine ⟨by simp [Event.isAsset], fun w => ?_⟩
  cases a1 : e.loadOk .colormap_vertex
  · right
    simp [InitializeColormapPass, Event.isAsset, a1]
  cases a2 : e.loadOk .colormap_fragment
  · right
    simp [InitializeColormapPass, Event.isAsset, a1, a2]
  cases a3 : e.linkOk .colormap
  · right
    simp [InitializeColormapPass, Event.isAsset, a1, a2, a3]
  left
  simp [InitializeColormapPass, colormapPassWorld, a1, a2, a3]

/-- Summary of `InitializePersistencePass`. -/
theorem InitializePersistencePass_spec (e : Env) :
    PassSpec (InitializePersistencePass e)
      (e.loadOk .persist_vertex = true ∧
       e.loadOk .persist_fragment = true ∧
       e.linkOk .persist = true)
      persistencePassWorld
      [ .load .persist_vertex true, .load .persist_fragment true,
       .add .persist .persist_vertex, .add .persist .persist_fragment, .link .persist true ] := by
  refine ⟨by simp [Event.isAsset], fun w => ?_⟩
  cases a1 : e.loadOk .persist_vertex
  · right
    simp [InitializePersistencePass, Event.isAsset, a1]
  cases a2 : e.loadOk .persist_fragment
  · right
    simp [InitializePersistencePass, Event.isAsset, a1, a2]
  cases a3 : e.linkOk .persist
  · right
    simp [InitializePersistencePass, Event.isAsset, a1, a2, a3]
  left
  simp [InitializePersistencePass, persistencePassWorld, a1, a2, a3]

/-- Summary of `InitializeCairoPass`. -/
theorem InitializeCairoPass_spec (e : Env) :
    PassSpec (InitializeCairoPass e)
      (e.loadOk .cairo_vertex = true ∧
       e.loadOk .cairo_fragment = true ∧
       e.linkOk .cairo = true)
      cairoPassWorld
      [ .load .cairo_vertex true, .load .cairo_fragment true,
       .add .cairo .cairo_vertex, .add .cairo .cairo_fragment, .link .cairo true ] := by
  refine ⟨by simp [Event.isAsset], fun w => ?_⟩
  cases a1 : e.loadOk .cairo_vertex
  · right
    simp [InitializeCairoPass, Event.isAsset, a1]
  cases a2 : e.loadOk .cairo_fragment
  · right
    simp [InitializeCairoPass, Event.isAsset, a1, a2]
  cases a3 : e.linkOk .cairo
  · right
    simp [InitializeCairoPass, Event.isAsset, a1, a2, a3]
  left
  simp [InitializeCairoPass, cairoPassWorld, a1, a2, a3]

/-- Summary of `InitializeEyePass`. -/
theorem InitializeEyePass_spec (e : Env) :
    PassSpec (InitializeEyePass e)
      (e.loadOk .eye_vertex = true ∧
       e.loadOk .eye_fragment = true ∧
       e.linkOk .eye = true ∧
       e.fopenOk 0 = true ∧
       e.fopenOk 1 = true ∧
       e.fopenOk 2 = true ∧
       e.fopenOk 3 = true ∧
       e.fopenOk 4 = true ∧
       e.fopenOk 5 = true)
      eyePassWorld
      [ .load .eye_vertex true, .load .eye_fragment true,
       .add .eye .eye_vertex, .add .eye .eye_fragment, .link .eye true,
       .fopen 0 true, .fopen 1 true, .fopen 2 true, .fopen 3 true, .fopen 4 true,
       .fopen 5 true ] := by
  refine ⟨by simp [Event.isAsset], fun w => ?_⟩
  cases a1 : e.loadOk .eye_vertex
  · right
    simp [InitializeEyePass, eyeColorRampLoop, NUM_EYE_COLORS, List.range, List.range.loop, Event.isAsset, a1]
  cases a2 : e.loadOk .eye_fragment
  · right
    simp [InitializeEyePass, eyeColorRampLoop, NUM_EYE_COLORS, List.range, List.range.loop, Event.isAsset, a1, a2]
  cases a3 : e.linkOk .eye
  · right
    simp [InitializeEyePass, eyeColorRampLoop, NUM_EYE_COLORS, List.range, List.range.loop, Event.isAsset, a1, a2, a3]
  cases a4 : e.fopenOk 0
  · right
    simp [InitializeEyePass, eyeColorRampLoop, NUM_EYE_COLORS, List.range, List.range.loop, Event.isAsset, a1, a2, a3, a4]
  cases a5 : e.fopenOk 1
  · right
    simp [InitializeEyePass, eyeColorRampLoop, NUM_EYE_COLORS, List.range, List.range.loop, Event.isAsset, a1, a2, a3, a4, a5]
  cases a6 : e.fopenOk 2
  · right
    simp [InitializeEyePass, eyeColorRampLoop, NUM_EYE_COLORS, List.range, List.range.loop, Event.isAsset, a1, a2, a3, a4, a5, a6]
  cases a7 : e.fopenOk 3
  · right
    simp [InitializeEyePass, eyeColorRampLoop, NUM_EYE_COLORS, List.range, List.range.loop, Event.isAsset, a1, a2, a3, a4, a5, a6, a7]
  cases a8 : e.fopenOk 4
  · right
    simp [InitializeEyePass, eyeColorRampLoop, NUM_EYE_COLORS, List.range, List.range.loop, Event.isAsset, a1, a2, a3, a4, a5, a6, a7, a8]
  cases a9 : e.fopenOk 5
  · right
    simp [InitializeEyePass, eyeColorRampLoop, NUM_EYE_COLORS, List.range, List.range.loop, Event.isAsset, a1, a2, a3, a4, a5, a6, a7, a8, a9]
  left
  simp [InitializeEyePass, eyeColorRampLoop, NUM_EYE_COLORS, List.range, List.range.loop, eyePassWorld, a1, a2, a3, a4, a5, a6, a7, a8, a9]

/-- Summary of the five `Initialize*Pass` calls in sequence. -/
theorem initializePasses_spec (e : Env) :
    PassSpec (initializePasses e) e.assetsOk
      (fun w => eyePassWorld (cairoPassWorld (persistencePassWorld
        (colormapPassWorld (waveformPassWorld w)))))
      passTrace := by
  refine PassSpec.congr ((InitializeWaveformPass_spec e).seq ((InitializeColormapPass_spec e).seq
    ((InitializePersistencePass_spec e).seq ((InitializeCairoPass_spec e).seq
      (InitializeEyePass_spec e))))) ⟨fun ha => ?_, fun hc => ?_⟩ rfl
  · obtain ⟨h1, h2, h3⟩ := ha
    exact ⟨⟨h1 _, h2 _, h1 _, h2 _⟩, ⟨h1 _, h1 _, h2 _⟩, ⟨h1 _, h1 _, h2 _⟩, ⟨h1 _, h1 _, h2 _⟩,
      h1 _, h1 _, h2 _, h3 0 (by decide), h3 1 (by decide), h3 2 (by decide),
      h3 3 (by decide), h3 4 (by decide), h3 5 (by decide)⟩
  · obtain ⟨⟨w1, w2, w3, w4⟩, ⟨c1, c2, c3⟩, ⟨p1, p2, p3⟩, ⟨k1, k2, k3⟩,
      e1, e2, e3, f0, f1, f2, f3, f4, f5⟩ := hc
    refine ⟨fun f => ?_, fun p => ?_, fun i hi => ?_⟩
    · cases f <;> assumption
    · cases p <;> assumption
    · have hi6 : i < 6 := hi
      interval_cases i <;> assumption

/-- The first part of `on_realize` either lets the call through, with a closed
form, or ends the process in the guarded block, leaving the state untouched
and only start-up checks and the error dialog in the trace. -/
theorem realizeHead_cases (e : Env) (w : World) :
    (gateOk e w ∧ realizeHead e w =
      { status := .returned (), world := headWorld w
        trace := [.gtk_on_realize, .make_current] ++
          (if w.g.m_isGlewInitialized then [] else checkTrace) ++
          [.newRenderData w.g.m_heapNext w.a.m_channel] }) ∨
    (w.g.m_isGlewInitialized = false ∧ ¬ e.capsOk ∧
      (realizeHead e w).status ≠ .returned () ∧ (realizeHead e w).world = w ∧
      ∃ t, (realizeHead e w).trace
            = .gtk_on_realize :: .make_current :: .check .gl_error :: t ∧
          ∀ ev ∈ t, ev.isCheck = true ∨ ev = .messageDialog) := by
  cases hf : w.g.m_isGlewInitialized
  case true =>
    left
    refine ⟨Or.inl hf, ?_⟩
    simp [realizeHead, headWorld, hf]
  case false =>
    cases c1 : e.has_error
    case true =>
      right
      simp [realizeHead, checkCapabilities, Env.capsOk, Event.isCheck, hf, c1]
    cases c2 : e.context_null
    case true =>
      right
      simp [realizeHead, checkCapabilities, Env.capsOk, Event.isCheck, hf, c1, c2]
    cases c3 : e.glewInit_ok
    case false =>
      right
      simp [realizeHead, checkCapabilities, Env.capsOk, Event.isCheck, hf, c1, c2, c3]
    cases c4 : e.GLEW_VERSION_4_2
    case false =>
      right
      simp [realizeHead, checkCapabilities, Env.capsOk, Event.isCheck, hf, c1, c2, c3, c4]
    cases c5 : e.GLEW_EXT_blend_equation_separate
    case false =>
      right
      simp [realizeHead, checkCapabilities, Env.capsOk, Event.isCheck, hf, c1, c2, c3, c4, c5]
    by_cases c6 : e.hdr.GL_EXT_framebuffer_object = 0
    · right
      simp [realizeHead, checkCapabilities, Env.capsOk, Event.isCheck, hf, c1, c2, c3, c4, c5, c6]
    by_cases c7 : e.hdr.GL_ARB_vertex_array_object = 0
    · right
      simp [realizeHead, checkCapabilities, Env.capsOk, Event.isCheck, hf, c1, c2, c3, c4, c5, c6, c7]
    by_cases c8 : e.hdr.GL_ARB_shader_storage_buffer_object = 0
    · right
      simp [realizeHead, checkCapabilities, Env.capsOk, Event.isCheck, hf, c1, c2, c3, c4, c5, c6, c7, c8]
    by_cases c9 : e.hdr.GL_ARB_compute_shader = 0
    · right
      simp [realizeHead, checkCapabilities, Env.capsOk, Event.isCheck, hf, c1, c2, c3, c4, c5, c6, c7, c8, c9]
    by_cases c10 : e.hdr.GL_ARB_gpu_shader_int64 = 0
    · right
      simp [realizeHead, checkCapabilities, Env.capsOk, Event.isCheck, hf, c1, c2, c3, c4, c5, c6, c7, c8, c9, c10]
    left
    refine ⟨Or.inr ⟨c1, c2, c3, c4, c5, c6, c7, c8, c9, c10⟩, ?_⟩
    simp [realizeHead, checkCapabilities, headWorld, checkTrace, hf, c1, c2, c3, c4, c5, c6, c7,
      c8, c9, c10]


/-- The function `on_realize` is its first part followed by the five passes. -/
theorem on_realize_split (e : Env) (w : World) :
    on_realize e w = (realizeHead e >>= fun _ => initializePasses e) w := by
  cases hf : w.g.m_isGlewInitialized
  case true => simp [on_realize, realizeHead, initializePasses, hf]
  case false =>
    cases c1 : e.has_error
    case true =>
      simp [on_realize, realizeHead, initializePasses, checkCapabilities, hf, c1]
    cases c2 : e.context_null
    case true =>
      simp [on_realize, realizeHead, initializePasses, checkCapabilities, hf, c1, c2]
    cases c3 : e.glewInit_ok
    case false =>
      simp [on_realize, realizeHead, initializePasses, checkCapabilities, hf, c1, c2, c3]
    cases c4 : e.GLEW_VERSION_4_2
    case false =>
      simp [on_realize, realizeHead, initializePasses, checkCapabilities, hf, c1, c2, c3, c4]
    cases c5 : e.GLEW_EXT_blend_equation_separate
    case false =>
      simp [on_realize, realizeHead, initializePasses, checkCapabilities, hf, c1, c2, c3, c4, c5]
    by_cases c6 : e.hdr.GL_EXT_framebuffer_object = 0
    · simp [on_realize, realizeHead, initializePasses, checkCapabilities, hf, c1, c2, c3, c4, c5, c6]
    by_cases c7 : e.hdr.GL_ARB_vertex_array_object = 0
    · simp [on_realize, realizeHead, initializePasses, checkCapabilities, hf, c1, c2, c3, c4, c5, c6, c7]
    by_cases c8 : e.hdr.GL_ARB_shader_storage_buffer_object = 0
    · simp [on_realize, realizeHead, initializePasses, checkCapabilities, hf, c1, c2, c3, c4, c5, c6, c7, c8]
    by_cases c9 : e.hdr.GL_ARB_compute_shader = 0
    · simp [on_realize, realizeHead, initializePasses, checkCapabilities, hf, c1, c2, c3, c4, c5, c6, c7, c8, c9]
    by_cases c10 : e.hdr.GL_ARB_gpu_shader_int64 = 0
    · simp [on_realize, realizeHead, initializePasses, checkCapabilities, hf, c1, c2, c3, c4, c5, c6, c7, c8, c9, c10]
    simp [on_realize, realizeHead, initializePasses, checkCapabilities, hf, c1, c2, c3, c4, c5,
      c6, c7, c8, c9, c10]

/-- The five passes leave the members listed in `realizedArea` as stated there. -/
theorem passes_headWorld (w : World) :
    eyePassWorld (cairoPassWorld (persistencePassWorld
      (colormapPassWorld (waveformPassWorld (headWorld w))))) = realizedWorld w := by
  simp [eyePassWorld, cairoPassWorld, persistencePassWorld, colormapPassWorld,
    waveformPassWorld, headWorld, realizedWorld, realizedArea]

/-- Every run of `on_realize` is of one of three kinds: it succeeds, with a closed
form; or it ends in the guarded block with the state untouched and only
start-up checks and the error dialog in its trace; or it gets through the
guarded block, creates the render data and ends in `LogFatal` inside one of
the `Initialize*Pass` functions. -/
theorem on_realize_cases (e : Env) (w : World) :
    (gateOk e w ∧ e.assetsOk ∧
      on_realize e w =
        { status := .returned (), world := realizedWorld w, trace := realizeTrace w }) ∨
    (w.g.m_isGlewInitialized = false ∧ ¬ e.capsOk ∧
      (on_realize e w).status ≠ .returned () ∧
      (on_realize e w).world = w ∧
      ∃ t, (on_realize e w).trace
            = .gtk_on_realize :: .make_current :: .check .gl_error :: t ∧
          ∀ ev ∈ t, ev.isCheck = true ∨ ev = .messageDialog) ∨
    (gateOk e w ∧ ¬ e.assetsOk ∧ (on_realize e w).status = .logFatal ∧
      ∃ t, (on_realize e w).trace
            = [.gtk_on_realize, .make_current] ++
                (if w.g.m_isGlewInitialized then [] else checkTrace) ++
                [.newRenderData w.g.m_heapNext w.a.m_channel] ++ t ∧
          ∀ ev ∈ t, ev.isAsset = true) := by
  rw [on_realize_split]
  rcases realizeHead_cases e w with ⟨hg, hh⟩ | ⟨hf, hc, hs, hw, t, ht, hall⟩
  · rcases (initializePasses_spec e).2 (headWorld w) with ⟨ha, hp⟩ | ⟨ha, hs, hall⟩
    · left
      refine ⟨hg, ha, ?_⟩
      simp [hh, hp, passes_headWorld, realizeTrace]
    · right
      right
      refine ⟨hg, ha, ?_⟩
      cases hr : initializePasses e (headWorld w) with
      | mk s w2 tr2 =>
        rw [hr] at hs hall
        simp only at hs hall
        subst hs
        simp only [bind_eq_procBind, Proc.bind, hh, hr, true_and]
        exact ⟨tr2, rfl, hall⟩
  · right
    left
    refine ⟨hf, hc, ?_⟩
    cases hr : realizeHead e w with
    | mk s w1 tr1 =>
      rw [hr] at hs hw ht
      simp only at hs hw ht
      subst hw ht
      cases s with
      | returned x => exact absurd rfl hs
      | exit1 =>
        simp [hr]
        exact hall
      | logFatal =>
        simp [hr]
        exact hall

/-- Closed form of `on_realize` when the guarded block lets the call through and
every load, link and open succeeds. -/
theorem on_realize_ok (e : Env) (w : World) (hg : gateOk e w) (ha : e.assetsOk) :
    on_realize e w =
      { status := .returned (), world := realizedWorld w, trace := realizeTrace w } := by
  rcases on_realize_cases e w with ⟨_, _, h⟩ | ⟨hf, hc, _⟩ | ⟨_, hna, _⟩
  · exact h
  · rcases hg with hg | hg
    · simp [hf] at hg
    · exact absurd hg hc
  · exact absurd ha hna

/-- A call of `on_realize` returns normally exactly when the guarded block lets it
through and every load, link and open succeeds. -/
theorem on_realize_returned_iff (e : Env) (w : World) :
    (on_realize e w).status = .returned () ↔ gateOk e w ∧ e.assetsOk := by
  constructor
  · intro h
    rcases on_realize_cases e w with ⟨hg, ha, _⟩ | ⟨_, _, hs, _⟩ | ⟨_, _, hs, _⟩
    · exact ⟨hg, ha⟩
    · exact absurd h hs
    · rw [hs] at h
      cases h
  · rintro ⟨hg, ha⟩
    rw [on_realize_ok e w hg ha]


/-! ## Lemmas: overlays, destruction, unrealization -/

/-- Erasing a key that has no entry changes nothing. -/
theorem mapErase_of_mapFind_none (key : StreamDescriptor)
    (m : List (StreamDescriptor × RenderDataId)) (h : mapFind key m = none) :
    mapErase key m = m := by
  induction m with
  | nil => rfl
  | cons kv rest ih =>
    obtain ⟨k, v⟩ := kv
    by_cases hk : k = key
    · simp [mapFind, hk] at h
    · simp only [mapFind, hk, if_false] at h
      simp [mapErase, hk, ih h]

/-- Closed form of `OnRemoveOverlay`: it always returns normally. -/
theorem OnRemoveOverlay_eq (filter : StreamDescriptor) (w : World) :
    OnRemoveOverlay filter w =
      { status := .returned ()
        world := removeOverlayWorld filter w
        trace := removeOverlayTrace filter w } := by
  cases h : mapFind filter w.a.m_overlayRenderData with
  | none =>
    simp [OnRemoveOverlay, removeOverlayWorld, removeOverlayTrace, h,
      mapErase_of_mapFind_none filter _ h]
  | some id =>
    simp [OnRemoveOverlay, removeOverlayWorld, removeOverlayTrace, h]

/-- Closed form of the destructor's loop over `m_overlays`. -/
theorem removeOverlays_eq (l : List StreamDescriptor) (w : World) :
    removeOverlays l w =
      { status := .returned ()
        world := removeOverlaysWorld l w
        trace := removeOverlaysTrace l w } := by
  induction l generalizing w with
  | nil => simp [removeOverlays, removeOverlaysWorld, removeOverlaysTrace]
  | cons d rest ih =>
    simp [removeOverlays, removeOverlaysWorld, removeOverlaysTrace, OnRemoveOverlay_eq, ih]

/-- The destructor's loop does not touch the primary render data pointer, and an
empty overlay store stays empty. -/
theorem removeOverlaysWorld_holds (l : List StreamDescriptor) (w : World) :
    (removeOverlaysWorld l w).a.m_waveformRenderData = w.a.m_waveformRenderData ∧
    (w.a.m_overlayRenderData = [] → (removeOverlaysWorld l w).a.m_overlayRenderData = []) := by
  induction l generalizing w with
  | nil => simp [removeOverlaysWorld]
  | cons d rest ih =>
    simp only [removeOverlaysWorld]
    refine ⟨(ih _).1, fun h => (ih _).2 ?_⟩
    simp [removeOverlayWorld, h, mapErase]

/-- Closed form of `on_unrealize`: it always returns normally. -/
theorem on_unrealize_eq (w : World) :
    on_unrealize w =
      { status := .returned ()
        world := cleanedWorld w
        trace := .make_current :: (cleanupTrace w.a ++ [.gtk_on_unrealize]) } := by
  simp [on_unrealize, CleanupGLHandles_eq]

/-- Closed form of the destructor's loop over `m_moveExistingGroupItems`. -/
theorem removeMenuItems_eq (l : List Nat) (w : World) :
    removeMenuItems l w =
      { status := .returned (), world := w, trace := l.map Event.removeMenuItem } := by
  induction l generalizing w with
  | nil => simp [removeMenuItems]
  | cons m rest ih => simp [removeMenuItems, ih]

/-- Closed form of the statement `if(p) delete p;` on a dialog pointer. -/
theorem deleteDialog_eq (p : Option Nat) (w : World) :
    deleteDialog p w =
      { status := .returned (), world := w, trace := p.toList.map Event.deleteDialog } := by
  cases p <;> simp [deleteDialog]

/-- Closed form of the destructor: it always returns normally. -/
theorem destructor_eq (w : World) :
    destructor w =
      { status := .returned ()
        world :=
          { g := (removeOverlaysWorld w.a.m_overlays
                    { w with g := { w.g with
                        m_refcount := Function.update w.g.m_refcount w.a.m_channel.m_channel
                          (w.g.m_refcount w.a.m_channel.m_channel - 1) } }).g
            a := { (removeOverlaysWorld w.a.m_overlays
                    { w with g := { w.g with
                        m_refcount := Function.update w.g.m_refcount w.a.m_channel.m_channel
                          (w.g.m_refcount w.a.m_channel.m_channel - 1) } }).a with
                   m_overlays := []
                   m_moveExistingGroupItems := [] } }
        trace :=
          .release w.a.m_channel.m_channel ::
            (removeOverlaysTrace w.a.m_overlays
              { w with g := { w.g with
                  m_refcount := Function.update w.g.m_refcount w.a.m_channel.m_channel
                    (w.g.m_refcount w.a.m_channel.m_channel - 1) } } ++
             (w.a.m_decodeDialog.toList.map Event.deleteDialog ++
              (w.a.m_pendingDecode.toList.map Event.deleteDialog ++
               w.a.m_moveExistingGroupItems.map Event.removeMenuItem))) } := by
  simp [destructor, removeOverlays_eq, deleteDialog_eq, removeMenuItems_eq]

/-- The destructor leaves the primary render data pointer as it was, and an empty
overlay store empty. -/
theorem destructor_holds (w : World) :
    (destructor w).world.a.m_waveformRenderData = w.a.m_waveformRenderData ∧
    (w.a.m_overlayRenderData = [] → (destructor w).world.a.m_overlayRenderData = []) := by
  rw [destructor_eq]
  exact ⟨(removeOverlaysWorld_holds _ _).1, fun h => (removeOverlaysWorld_holds _ _).2 h⟩


/-! ## Lemmas used by the claims -/

/-- The platform `envOk` passes every start-up check. -/
theorem envOk_capsOk : envOk.capsOk := by
  simp [Env.capsOk, envOk, glew_h, Env.GLEW_EXT_blend_equation_separate]

/-- On the platform `envOk` every load, link and open succeeds. -/
theorem envOk_assetsOk : envOk.assetsOk :=
  ⟨fun _ => rfl, fun _ => rfl, fun _ _ => rfl⟩

/-- Destroying every texture of a list gives the list of that many empty textures. -/
theorem map_Texture_Destroy (l : List Texture) :
    l.map Texture.Destroy = List.replicate l.length {} := by
  induction l with
  | nil => rfl
  | cons t rest ih => simp [List.replicate_succ, ih, Texture.Destroy]

/-- With the flag set, a call of `on_realize` evaluates no start-up check. -/
theorem on_realize_no_check_of_flag (e : Env) (w : World)
    (hf : w.g.m_isGlewInitialized = true) :
    ∀ ev ∈ (on_realize e w).trace, ev.isCheck = false := by
  intro ev hev
  rcases on_realize_cases e w with ⟨_, _, h⟩ | ⟨hf', _⟩ | ⟨_, _, _, t, ht, hall⟩
  · rw [h] at hev
    simp only [realizeTrace, hf, passTrace] at hev
    simp at hev
    rcases hev with h | h | h | h | h | h | h | h | h | h | h | h | h | h | h | h | h | h |
      h | h | h | h | h | h | h | h | h | h | h | h | h | h | h | h | h <;>
      simp [h, Event.isCheck]
  · simp [hf] at hf'
  · rw [ht] at hev
    simp only [hf, if_true, List.append_nil, List.mem_append, List.mem_cons,
      List.mem_singleton, List.not_mem_nil, or_false] at hev
    rcases hev with ((h | h) | h) | h
    · simp [h, Event.isCheck]
    · simp [h, Event.isCheck]
    · simp [h, Event.isCheck]
    · have := hall ev h
      cases ev <;> simp [Event.isAsset] at this <;> simp [Event.isCheck]

/-- A call of `on_realize` that returns normally leaves the flag set. -/
theorem on_realize_sets_flag (e : Env) (w : World)
    (h : (on_realize e w).status = .returned ()) :
    (on_realize e w).world.g.m_isGlewInitialized = true := by
  obtain ⟨hg, ha⟩ := (on_realize_returned_iff e w).1 h
  rw [on_realize_ok e w hg ha]
  rfl

/-- Once the flag is set, no call of a sequence evaluates a start-up check. -/
theorem realizeCalls_no_check_of_flag (calls : List (Nat × Env)) :
    ∀ p : Process, p.g.m_isGlewInitialized = true →
      ∀ t ∈ realizeCalls p calls, ∀ ev ∈ t, ev.isCheck = false := by
  induction calls with
  | nil =>
    intro p _ t ht
    simp [realizeCalls] at ht
  | cons c rest ih =>
    intro p hf t ht
    obtain ⟨i, e⟩ := c
    simp only [realizeCalls, List.mem_cons] at ht
    rcases ht with ht | ht
    · subst ht
      exact on_realize_no_check_of_flag e _ hf
    · cases hs : (on_realize e { g := p.g, a := p.areas i }).status with
      | returned u =>
        rw [hs] at ht
        exact ih _ (on_realize_sets_flag e _ hs) t ht
      | exit1 =>
        rw [hs] at ht
        simp at ht
      | logFatal =>
        rw [hs] at ht
        simp at ht

/-- With the flag clear, a call of `on_realize` evaluates the GL error check, and
its trace splits into a part without loads or links followed by a part without
start-up checks; if anything was loaded or linked, all five checks are in the
first part. -/
theorem on_realize_checks_first (e : Env) (w : World)
    (hf : w.g.m_isGlewInitialized = false) :
    Event.check .gl_error ∈ (on_realize e w).trace ∧
    ∃ pre post, (on_realize e w).trace = pre ++ post ∧
      (∀ ev ∈ pre, ev.isLoadOrLink = false) ∧
      (∀ ev ∈ post, ev.isCheck = false) ∧
      ((∃ ev ∈ (on_realize e w).trace, ev.isLoadOrLink = true) →
        ∀ c, Event.check c ∈ pre) := by
  have hpre : ∀ ev ∈ ([.gtk_on_realize, .make_current] ++ checkTrace : List Event),
      ev.isLoadOrLink = false := by
    intro ev hev
    simp [checkTrace] at hev
    rcases hev with h | h | h | h | h | h | h <;> simp [h, Event.isLoadOrLink]
  have hall5 : ∀ c, Event.check c ∈ ([.gtk_on_realize, .make_current] ++ checkTrace) := by
    intro c
    cases c <;> simp [checkTrace]
  rcases on_realize_cases e w with ⟨_, _, h⟩ | ⟨_, _, _, _, t, ht, hall⟩ |
    ⟨_, _, _, t, ht, hall⟩
  · rw [h]
    refine ⟨by simp [realizeTrace, hf, checkTrace], [.gtk_on_realize, .make_current] ++ checkTrace,
      .newRenderData w.g.m_heapNext w.a.m_channel :: passTrace, by simp [realizeTrace, hf],
      hpre, ?_, fun _ => hall5⟩
    intro ev hev
    simp [passTrace] at hev
    rcases hev with h | h | h | h | h | h | h | h | h | h | h | h | h | h | h | h | h | h |
      h | h | h | h | h | h | h | h | h | h | h | h | h | h | h <;>
      simp [h, Event.isCheck]
  · rw [ht]
    have hno : ∀ ev ∈ (.gtk_on_realize :: .make_current :: .check .gl_error :: t : List Event),
        ev.isLoadOrLink = false := by
      intro ev hev
      simp only [List.mem_cons] at hev
      rcases hev with h | h | h | h
      · simp [h, Event.isLoadOrLink]
      · simp [h, Event.isLoadOrLink]
      · simp [h, Event.isLoadOrLink]
      · rcases hall ev h with h' | h'
        · cases ev <;> simp [Event.isCheck] at h'
          simp [Event.isLoadOrLink]
        · simp [h', Event.isLoadOrLink]
    refine ⟨by simp, _, [], (List.append_nil _).symm, hno, by simp, ?_⟩
    rintro ⟨ev, hev, hl⟩
    rw [hno ev hev] at hl
    cases hl
  · rw [ht]
    refine ⟨by simp [hf, checkTrace], [.gtk_on_realize, .make_current] ++ checkTrace,
      .newRenderData w.g.m_heapNext w.a.m_channel :: t, by simp [hf], hpre, ?_,
      fun _ => hall5⟩
    intro ev hev
    simp only [List.mem_cons] at hev
    rcases hev with h | h
    · simp [h, Event.isCheck]
    · have := hall ev h
      cases ev <;> simp [Event.isAsset] at this <;> simp [Event.isCheck]


/-! ## Lemmas: the overlay store as a map -/

/-- A key that is not among the keys has no entry. -/
theorem mapFind_eq_none_of_not_mem (key : StreamDescriptor)
    (m : List (StreamDescriptor × RenderDataId)) (h : key ∉ m.map Prod.fst) :
    mapFind key m = none := by
  induction m with
  | nil => rfl
  | cons kv rest ih =>
    obtain ⟨k, v⟩ := kv
    simp only [List.map_cons, List.mem_cons, not_or] at h
    have hk : ¬ k = key := fun hk => h.1 hk.symm
    simp [mapFind, hk, ih h.2]

/-- Erasing one key leaves the entries of the other keys as they were. -/
theorem mapFind_mapErase_ne (key other : StreamDescriptor)
    (m : List (StreamDescriptor × RenderDataId)) (h : other ≠ key) :
    mapFind other (mapErase key m) = mapFind other m := by
  induction m with
  | nil => rfl
  | cons kv rest ih =>
    obtain ⟨k, v⟩ := kv
    by_cases hk : k = key
    · subst hk
      have hko : ¬ k = other := fun h' => h h'.symm
      simp [mapFind, mapErase, hko]
    · by_cases hko : k = other
      · subst hko
        simp [mapFind, mapErase, hk]
      · simp [mapFind, mapErase, hk, hko, ih]

/-- Erasing never gives a key an entry. -/
theorem mapFind_mapErase_none (key other : StreamDescriptor)
    (m : List (StreamDescriptor × RenderDataId)) (h : mapFind other m = none) :
    mapFind other (mapErase key m) = none := by
  by_cases ho : other = key
  · subst ho
    rw [mapErase_of_mapFind_none other m h]
    exact h
  · rw [mapFind_mapErase_ne key other m ho]
    exact h

/-- What is left after an erase is a sublist of the map. -/
theorem mapErase_sublist (key : StreamDescriptor)
    (m : List (StreamDescriptor × RenderDataId)) : (mapErase key m).Sublist m := by
  induction m with
  | nil => exact List.Sublist.refl _
  | cons kv rest ih =>
    obtain ⟨k, v⟩ := kv
    by_cases hk : k = key
    · simp only [mapErase, hk, if_true]
      exact List.sublist_cons_self _ _
    · simp only [mapErase, hk, if_false]
      exact ih.cons₂ _

/-- An erase keeps the keys unique. -/
theorem uniqueKeys_mapErase (key : StreamDescriptor)
    (m : List (StreamDescriptor × RenderDataId)) (h : uniqueKeys m) :
    uniqueKeys (mapErase key m) :=
  List.Nodup.sublist ((mapErase_sublist key m).map Prod.fst) h

/-- In a map with unique keys the erased key has no entry afterwards. -/
theorem mapFind_mapErase_self (key : StreamDescriptor)
    (m : List (StreamDescriptor × RenderDataId)) (h : uniqueKeys m) :
    mapFind key (mapErase key m) = none := by
  induction m with
  | nil => rfl
  | cons kv rest ih =>
    obtain ⟨k, v⟩ := kv
    have hn : k ∉ rest.map Prod.fst ∧ uniqueKeys rest := by
      simpa [uniqueKeys] using h
    by_cases hk : k = key
    · subst hk
      simp only [mapErase, if_true]
      exact mapFind_eq_none_of_not_mem k rest hn.1
    · simp only [mapErase, hk, if_false, mapFind]
      exact ih hn.2

/-- The destructor's loop over `m_overlays`: what it does to the overlay store, to
the reference counts and to the other members. -/
theorem removeOverlaysWorld_spec (l : List StreamDescriptor) :
    ∀ w : World,
      (uniqueKeys w.a.m_overlayRenderData →
        ∀ d ∈ l, mapFind d (removeOverlaysWorld l w).a.m_overlayRenderData = none) ∧
      (∀ d, mapFind d w.a.m_overlayRenderData = none →
        mapFind d (removeOverlaysWorld l w).a.m_overlayRenderData = none) ∧
      (∀ c, (removeOverlaysWorld l w).g.m_refcount c = w.g.m_refcount c - overlaysOn c l) ∧
      (removeOverlaysWorld l w).a.m_overlays = w.a.m_overlays ∧
      (removeOverlaysWorld l w).g.m_heapLive = w.g.m_heapLive := by
  induction l with
  | nil =>
    intro w
    simp [removeOverlaysWorld, overlaysOn]
  | cons d0 rest ih =>
    intro w
    have h1 := ih (removeOverlayWorld d0 w)
    simp only [removeOverlaysWorld]
    refine ⟨?_, ?_, ?_, ?_, ?_⟩
    · intro hu d hd
      have hu1 : uniqueKeys (removeOverlayWorld d0 w).a.m_overlayRenderData :=
        uniqueKeys_mapErase d0 _ hu
      rcases List.mem_cons.1 hd with rfl | hd
      · exact h1.2.1 d (mapFind_mapErase_self d _ hu)
      · exact h1.1 hu1 d hd
    · intro d hd
      exact h1.2.1 d (mapFind_mapErase_none d0 d _ hd)
    · intro c
      rw [h1.2.2.1 c]
      by_cases hc : d0.m_channel = c
      · subst hc
        simp [removeOverlayWorld, overlaysOn]
        omega
      · have hc' : ¬ c = d0.m_channel := fun h => hc h.symm
        simp [removeOverlayWorld, overlaysOn, Function.update, hc, hc']
    · rw [h1.2.2.2.1]
      rfl
    · rw [h1.2.2.2.2]
      rfl

/-- The `Release` calls of the destructor's loop, in order: one per element of
the overlay list. -/
theorem removeOverlaysTrace_release (l : List StreamDescriptor) :
    ∀ w : World, (removeOverlaysTrace l w).filter Event.isRelease
      = l.map (fun d => Event.release d.m_channel) := by
  induction l with
  | nil =>
    intro w
    rfl
  | cons d0 rest ih =>
    intro w
    simp only [removeOverlaysTrace, List.filter_append, ih, List.map_cons]
    cases h : mapFind d0 w.a.m_overlayRenderData <;>
      simp [removeOverlayTrace, h, Event.isRelease]


/-- Every render data object the area holds is deleted by `CleanupGLHandles`. -/
theorem cleanupTrace_deletes_held (a : WaveformArea) (id : RenderDataId) (h : a.holds id) :
    Event.deleteRenderData id ∈ cleanupTrace a := by
  have hmem : id ∈ heldIds a := by
    rcases h with h | h
    · simp [heldIds, h]
    · simp only [heldIds, List.mem_append]
      exact Or.inr h
  simp only [cleanupTrace, List.mem_append, List.mem_map]
  exact Or.inl (Or.inr ⟨id, hmem, rfl⟩)


/-! ## Lemmas: render data and reference counts along the life of an area -/

/-- An erase that finds an entry takes one entry off the channel of the key and
none off the other channels. -/
theorem entriesOn_mapErase (key : StreamDescriptor) (c : ChannelId)
    (m : List (StreamDescriptor × RenderDataId)) (id : RenderDataId)
    (h : mapFind key m = some id) :
    entriesOn c (mapErase key m) + (if c = key.m_channel then 1 else 0) = entriesOn c m := by
  induction m with
  | nil => simp [mapFind] at h
  | cons kv rest ih =>
    obtain ⟨k, v⟩ := kv
    by_cases hk : k = key
    · subst hk
      by_cases hc : c = k.m_channel
      · simp [mapErase, entriesOn, hc]
      · have hc2 : ¬ k.m_channel = c := fun e => hc e.symm
        simp [mapErase, entriesOn, hc, List.count_cons, hc2]
    · simp only [mapFind, hk, if_false] at h
      have := ih h
      simp only [entriesOn] at this
      simp only [mapErase, hk, if_false, entriesOn, List.map_cons, List.count_cons]
      omega

/-- An entry of the store counts among the entries on the channel of its key. -/
theorem entriesOn_pos_of_mem (d : StreamDescriptor) (id : RenderDataId)
    (m : List (StreamDescriptor × RenderDataId)) (h : (d, id) ∈ m) :
    1 ≤ entriesOn d.m_channel m := by
  have hm : d.m_channel ∈ m.map fun kv => kv.1.m_channel :=
    List.mem_map.2 ⟨(d, id), h, rfl⟩
  exact List.count_pos_iff.2 hm

/-- A successful `on_realize` keeps the cover of the references. -/
theorem refsCover_realizedWorld (ext : ChannelId → Int) (w : World) (h : refsCover ext w) :
    refsCover ext (realizedWorld w) := by
  intro c
  have := h c
  simpa [neededRefs, ownRefs, realizedWorld, realizedArea] using this

/-- The call `on_unrealize` keeps the cover of the references. -/
theorem refsCover_cleanedWorld (ext : ChannelId → Int) (w : World) (h : refsCover ext w) :
    refsCover ext (cleanedWorld w) := by
  intro c
  have := h c
  simp only [neededRefs, ownRefs, cleanedWorld, cleanedArea, entriesOn, List.map_nil,
    List.count_nil, Nat.cast_zero, add_zero] at this ⊢
  have hn : (0 : Int) ≤ (List.count c (w.a.m_overlayRenderData.map fun kv => kv.1.m_channel) : Int) :=
    Int.ofNat_nonneg _
  omega

/-- The call `OnRemoveOverlay(filter)` keeps the cover of the references when
`filter` has an entry in the store or the area holds a reference to spare on the
channel of `filter`. -/
theorem refsCover_removeOverlayWorld (ext : ChannelId → Int) (w : World)
    (filter : StreamDescriptor) (h : refsCover ext w)
    (ha : mapFind filter w.a.m_overlayRenderData ≠ none ∨
      neededRefs w.a filter.m_channel < ownRefs ext w filter.m_channel) :
    refsCover ext (removeOverlayWorld filter w) := by
  intro c
  have hc := h c
  cases hf : mapFind filter w.a.m_overlayRenderData with
  | some id =>
    have he := entriesOn_mapErase filter c _ id hf
    by_cases hcf : c = filter.m_channel
    · subst hcf
      simp only [if_true] at he
      simp only [neededRefs, ownRefs, removeOverlayWorld, Function.update_same] at hc ⊢
      omega
    · simp only [hcf, if_false, add_zero] at he
      simp only [neededRefs, ownRefs, removeOverlayWorld, Function.update_noteq hcf, he] at hc ⊢
      exact hc
  | none =>
    have hs : neededRefs w.a filter.m_channel < ownRefs ext w filter.m_channel := by
      rcases ha with ha | ha
      · exact absurd hf ha
      · exact ha
    have hme := mapErase_of_mapFind_none filter _ hf
    by_cases hcf : c = filter.m_channel
    · subst hcf
      simp only [neededRefs, ownRefs, removeOverlayWorld, Function.update_same, hme] at hs ⊢
      omega
    · simp only [neededRefs, ownRefs, removeOverlayWorld, Function.update_noteq hcf, hme] at hc ⊢
      exact hc

/-- An area that holds render data for a channel holds a render data object. -/
theorem holds_of_holdsRenderDataFor (a : WaveformArea) (c : ChannelId)
    (h : a.holdsRenderDataFor c) : ∃ id, a.holds id := by
  rcases h with ⟨hp, _⟩ | ⟨d, id, hmem, _⟩
  · cases hv : a.m_waveformRenderData with
    | none => exact absurd hv hp
    | some id => exact ⟨id, Or.inl hv⟩
  · exact ⟨id, Or.inr (List.mem_map.2 ⟨(d, id), hmem, rfl⟩)⟩

/-- Render data for a channel is among the references the members stand for. -/
theorem neededRefs_pos_of_holdsRenderDataFor (a : WaveformArea) (c : ChannelId)
    (h : a.holdsRenderDataFor c) : 1 ≤ neededRefs a c := by
  have hn : (0 : Int) ≤ (entriesOn c a.m_overlayRenderData : Int) := Int.ofNat_nonneg _
  rcases h with ⟨_, hc⟩ | ⟨d, id, hmem, hd⟩
  · simp only [neededRefs, hc, if_true]
    rw [hc] at hn
    omega
  · have := entriesOn_pos_of_mem d id _ hmem
    rw [hd] at this
    simp only [neededRefs]
    split_ifs <;> omega

/-- Along an orderly sequence of calls from a state in which the references cover
the members, either they still do at the end, or the area has been destroyed
and holds no render data. -/
theorem runSteps_refsCover (ext : ChannelId → Int) (steps : List Step) :
    ∀ (w w1 : World),
      refsCover ext w →
      orderlyRun ext w steps →
      runSteps w steps = some w1 →
      refsCover ext w1 ∨ ∀ id, ¬ w1.a.holds id := by
  induction steps with
  | nil =>
    intro w w1 hc _ hrun
    simp only [runSteps, Option.some.injEq] at hrun
    subst hrun
    exact Or.inl hc
  | cons s rest ih =>
    intro w w1 hc ho hrun
    cases s with
    | realize e =>
      simp only [runSteps] at hrun
      simp only [orderlyRun] at ho
      cases hs : (on_realize e w).status with
      | returned u =>
        simp only [hs] at hrun
        have hok := (on_realize_returned_iff e w).1 hs
        have heq := on_realize_ok e w hok.1 hok.2
        refine ih _ w1 ?_ ho hrun
        rw [heq]
        exact refsCover_realizedWorld ext w hc
      | exit1 => simp [hs] at hrun
      | logFatal => simp [hs] at hrun
    | unrealize =>
      simp only [runSteps] at hrun
      simp only [orderlyRun] at ho
      refine ih _ w1 ?_ ho hrun
      rw [on_unrealize_eq]
      exact refsCover_cleanedWorld ext w hc
    | removeOverlay filter =>
      simp only [runSteps] at hrun
      simp only [orderlyRun] at ho
      refine ih _ w1 ?_ ho.2 hrun
      rw [OnRemoveOverlay_eq]
      exact refsCover_removeOverlayWorld ext w filter hc ho.1
    | destroy =>
      simp only [orderlyRun] at ho
      cases rest with
      | cons s2 rest2 => simp [runSteps] at hrun
      | nil =>
        simp only [runSteps, Option.some.injEq] at hrun
        subst hrun
        right
        intro id
        have hprim : w.a.m_waveformRenderData = none := by
          cases hp : w.a.m_waveformRenderData with
          | none => rfl
          | some id => exact absurd (Or.inl hp) (ho id)
        have hover : w.a.m_overlayRenderData = [] := by
          cases hov : w.a.m_overlayRenderData with
          | nil => rfl
          | cons kv tl => exact absurd (Or.inr (by simp [hov])) (ho kv.2)
        have hdes := destructor_holds w
        simp [WaveformArea.holds, hdes.1, hdes.2 hover, hprim]


/-! ## C1: context loss releases every render data object -/

/-- C1: for every state, `CleanupGLHandles` returns with `m_waveformRenderData` NULL and
`m_overlayRenderData` empty, and every render data object the area held has
been deleted (it is no longer live and a `delete` of it is in the trace). A
following `on_realize` that gets through its guarded block creates a render
data object for `m_channel`; when its loads succeed as well it returns with
that newly created, live object as the primary render data, and in a
well-formed heap that object is none of the objects live or held before. -/
theorem C1_cleanup_empties_store_then_realize_is_fresh (w : World) :
    (CleanupGLHandles w).status = .returned () ∧
    (CleanupGLHandles w).world.a.m_waveformRenderData = none ∧
    (CleanupGLHandles w).world.a.m_overlayRenderData = [] ∧
    (∀ id, w.a.holds id →
      ¬ (CleanupGLHandles w).world.g.isLive id ∧
      Event.deleteRenderData id ∈ (CleanupGLHandles w).trace) ∧
    (∀ e : Env, gateOk e (CleanupGLHandles w).world →
      Event.newRenderData w.g.m_heapNext w.a.m_channel
        ∈ (on_realize e (CleanupGLHandles w).world).trace) ∧
    (∀ e : Env, gateOk e (CleanupGLHandles w).world → e.assetsOk →
      (on_realize e (CleanupGLHandles w).world).status = .returned () ∧
      (on_realize e (CleanupGLHandles w).world).world.a.m_waveformRenderData
        = some w.g.m_heapNext ∧
      (w.g.m_heapNext, w.a.m_channel)
        ∈ (on_realize e (CleanupGLHandles w).world).world.g.m_heapLive ∧
      (w.heapWF → ¬ w.g.isLive w.g.m_heapNext ∧ ¬ w.a.holds w.g.m_heapNext)) := by
  refine ⟨?_, ?_, ?_, ?_, ?_, ?_⟩
  · simp [CleanupGLHandles_eq]
  · simp [CleanupGLHandles_eq, cleanedWorld, cleanedArea]
  · simp [CleanupGLHandles_eq, cleanedWorld, cleanedArea]
  · intro id hid
    have hmem : id ∈ heldIds w.a := by
      rcases hid with h | h
      · simp [heldIds, h]
      · simp only [heldIds, List.mem_append]
        exact Or.inr h
    constructor
    · simp only [CleanupGLHandles_eq, cleanedWorld, Globals.isLive, List.mem_map,
        List.mem_filter, not_exists, not_and]
      rintro ⟨i, c⟩ ⟨_, hn⟩ rfl
      simp [hmem] at hn
    · simp only [CleanupGLHandles_eq, cleanupTrace, List.mem_append, List.mem_map]
      exact Or.inl (Or.inr ⟨id, hmem, rfl⟩)
  · intro e hg
    rcases on_realize_cases e (CleanupGLHandles w).world with ⟨_, _, h⟩ | ⟨hf, hc, _⟩ |
      ⟨_, _, _, t, ht, _⟩
    · rw [h]
      simp [CleanupGLHandles_eq, cleanedWorld, cleanedArea, realizeTrace]
    · rcases hg with hg | hg
      · simp [hf] at hg
      · exact absurd hg hc
    · rw [ht]
      simp [CleanupGLHandles_eq, cleanedWorld, cleanedArea]
  · intro e hg ha
    rw [on_realize_ok e _ hg ha]
    refine ⟨rfl, ?_, ?_, ?_⟩
    · simp [CleanupGLHandles_eq, cleanedWorld, realizedWorld, realizedArea]
    · simp [CleanupGLHandles_eq, cleanedWorld, cleanedArea, realizedWorld]
    · intro hwf
      exact ⟨fun h => lt_irrefl _ (hwf.1 _ h), fun h => lt_irrefl _ (hwf.2 _ h)⟩

/-- C1 at the state with a primary render data object and two overlay entries. -/
theorem C1_witness_two_overlays :
    (CleanupGLHandles wTwoOverlays).world.a.m_waveformRenderData = none ∧
    (CleanupGLHandles wTwoOverlays).world.a.m_overlayRenderData = [] ∧
    ¬ (CleanupGLHandles wTwoOverlays).world.g.isLive 0 ∧
    ¬ (CleanupGLHandles wTwoOverlays).world.g.isLive 1 ∧
    ¬ (CleanupGLHandles wTwoOverlays).world.g.isLive 2 ∧
    (on_realize envOk (CleanupGLHandles wTwoOverlays).world).world.a.m_waveformRenderData
      = some 3 ∧
    ¬ wTwoOverlays.a.holds 3 :=
  have h := C1_cleanup_empties_store_then_realize_is_fresh wTwoOverlays
  have hr := h.2.2.2.2.2 envOk
    (Or.inl (by simp [CleanupGLHandles_eq, cleanedWorld, wTwoOverlays]))
    ⟨fun _ => rfl, fun _ => rfl, fun _ _ => rfl⟩
  ⟨h.2.1, h.2.2.1,
    (h.2.2.2.1 0 (Or.inl rfl)).1,
    (h.2.2.2.1 1 (Or.inr (by simp [wTwoOverlays]))).1,
    (h.2.2.2.1 2 (Or.inr (by simp [wTwoOverlays]))).1,
    hr.2.1,
    (hr.2.2.2 (by
      constructor
      · intro id hid
        have hlt : id < 3 := by
          simp [Globals.isLive, wTwoOverlays] at hid
          rcases hid with rfl | rfl | rfl <;> decide
        exact hlt
      · intro id hid
        have hlt : id < 3 := by
          simp [WaveformArea.holds, wTwoOverlays, realizedArea] at hid
          rcases hid with rfl | rfl | rfl <;> decide
        exact hlt)).2⟩

/-! ## C2: construction followed by destruction -/

/-- C2: for every process state and channel, constructing an area on the channel adds one
to its reference count, and destroying that area right away gives back the
reference counts of all channels as they were before the construction; the
destroyed area holds no render data (NULL primary, empty overlay store, so no
entry for the channel). -/
theorem C2_construct_then_destroy_restores_refcount
    (g : Globals) (channel : StreamDescriptor) (parent : Nat) :
    (construct channel parent g).status = .returned () ∧
    (construct channel parent g).world.g.m_refcount channel.m_channel
      = g.m_refcount channel.m_channel + 1 ∧
    (destructor (construct channel parent g).world).status = .returned () ∧
    (destructor (construct channel parent g).world).world.g.m_refcount = g.m_refcount ∧
    (destructor (construct channel parent g).world).world.a.m_waveformRenderData = none ∧
    (destructor (construct channel parent g).world).world.a.m_overlayRenderData = [] ∧
    mapFind channel
      (destructor (construct channel parent g).world).world.a.m_overlayRenderData = none := by
  simp [construct, SharedCtorInit, memberInit, destructor, removeOverlays, deleteDialog,
    removeMenuItems, mapFind]

/-! ## C3: `OnRemoveOverlay` without render data -/

/-- C3, as stated, fails: the overlay `ch8` has no entry in `m_overlayRenderData`, yet
`OnRemoveOverlay` changes the reference count of its channel (from 1 to 0). -/
theorem C3_counterexample_release_is_unconditional :
    mapFind ch8 wOverlayPending.a.m_overlayRenderData = none ∧
    wOverlayPending.g.m_refcount ch8.m_channel = 1 ∧
    (OnRemoveOverlay ch8 wOverlayPending).world.g.m_refcount ch8.m_channel = 0 := by
  simp [OnRemoveOverlay, wOverlayPending, w0, construct, SharedCtorInit, memberInit, mapFind,
    ch8, g0]

/-- C3, amended: for every stream descriptor `filter` without an entry in
`m_overlayRenderData`, `OnRemoveOverlay(filter)` returns normally, leaves every
member of the area (the overlay store included), the heap and the flag
unchanged, and decrements the reference count of the channel of `filter` by
exactly one, leaving the other reference counts unchanged. -/
theorem C3_remove_overlay_without_entry (w : World) (filter : StreamDescriptor)
    (h : mapFind filter w.a.m_overlayRenderData = none) :
    (OnRemoveOverlay filter w).status = .returned () ∧
    (OnRemoveOverlay filter w).world.a = w.a ∧
    (OnRemoveOverlay filter w).world.g.m_heapLive = w.g.m_heapLive ∧
    (OnRemoveOverlay filter w).world.g.m_heapNext = w.g.m_heapNext ∧
    (OnRemoveOverlay filter w).world.g.m_isGlewInitialized = w.g.m_isGlewInitialized ∧
    (OnRemoveOverlay filter w).world.g.m_refcount filter.m_channel
      = w.g.m_refcount filter.m_channel - 1 ∧
    (∀ c, c ≠ filter.m_channel →
      (OnRemoveOverlay filter w).world.g.m_refcount c = w.g.m_refcount c) ∧
    (OnRemoveOverlay filter w).trace = [.release filter.m_channel] := by
  simp [OnRemoveOverlay, h]
  intro c hc
  simp [Function.update, hc]

/-- C3 amended, at the overlay that was added but never rendered. -/
theorem C3_witness_pending_overlay :
    (OnRemoveOverlay ch8 wOverlayPending).world.a = wOverlayPending.a ∧
    (OnRemoveOverlay ch8 wOverlayPending).world.g.m_refcount ch8.m_channel
      = wOverlayPending.g.m_refcount ch8.m_channel - 1 :=
  have h := C3_remove_overlay_without_entry wOverlayPending ch8
    (by simp [wOverlayPending, w0, construct, SharedCtorInit, memberInit, mapFind])
  ⟨h.2.1, h.2.2.2.2.2.1⟩

/-! ## C4: the extension check -/

/-- C4, at an input where the code departs from the claim: GLEW is not yet initialized,
OpenGL 4.2 is supported, every load succeeds, and the driver does not report
`GL_EXT_framebuffer_object` at run time. The extension test passes all the
same (it reads the header macro, not the run-time variable): `on_realize`
returns normally, sets `m_isGlewInitialized`, creates the primary render data
and links the programs. -/
theorem C4_runtime_absent_extension_passes_check :
    w0.g.m_isGlewInitialized = false ∧
    envNoFramebufferExt.GLEW_VERSION_4_2 = true ∧
    envNoFramebufferExt.supported .EXT_framebuffer_object = false ∧
    (on_realize envNoFramebufferExt w0).status = .returned () ∧
    (on_realize envNoFramebufferExt w0).world.g.m_isGlewInitialized = true ∧
    (on_realize envNoFramebufferExt w0).world.a.m_waveformRenderData = some 0 ∧
    Event.check .extensions ∈ (on_realize envNoFramebufferExt w0).trace ∧
    Event.link .colormap true ∈ (on_realize envNoFramebufferExt w0).trace := by
  have hg : gateOk envNoFramebufferExt w0 :=
    Or.inr (by simp [Env.capsOk, envNoFramebufferExt, envOk, glew_h,
      Env.GLEW_EXT_blend_equation_separate])
  have ha : envNoFramebufferExt.assetsOk := ⟨fun _ => rfl, fun _ => rfl, fun _ _ => rfl⟩
  rw [on_realize_ok _ _ hg ha]
  simp [w0, construct, SharedCtorInit, memberInit, g0, envNoFramebufferExt, envOk,
    realizedWorld, realizedArea, realizeTrace, checkTrace, passTrace]

/-! ## C5: the start-up checks run once, before any load -/

/-- C5: in every sequence of `on_realize` calls of one process (on one or several areas)
that starts with `m_isGlewInitialized` false, the first call evaluates the GL
error check and its trace splits into a first part without any load or link
and a second part without any start-up check, all five checks being in the
first part when anything was loaded or linked; no later call evaluates a
start-up check. -/
theorem C5_checks_once_in_first_call_before_loads (p : Process) (calls : List (Nat × Env))
    (h0 : p.g.m_isGlewInitialized = false) :
    (∀ t, (realizeCalls p calls)[0]? = some t →
      Event.check .gl_error ∈ t ∧
      ∃ pre post, t = pre ++ post ∧
        (∀ ev ∈ pre, ev.isLoadOrLink = false) ∧
        (∀ ev ∈ post, ev.isCheck = false) ∧
        ((∃ ev ∈ t, ev.isLoadOrLink = true) → ∀ c, Event.check c ∈ pre)) ∧
    (∀ k t, 0 < k → (realizeCalls p calls)[k]? = some t → ∀ ev ∈ t, ev.isCheck = false) := by
  cases calls with
  | nil =>
    constructor
    · intro t ht
      simp [realizeCalls] at ht
    · intro k t _ ht
      simp [realizeCalls] at ht
  | cons c rest =>
    obtain ⟨i, e⟩ := c
    constructor
    · intro t ht
      simp only [realizeCalls, List.getElem?_cons_zero, Option.some.injEq] at ht
      subst ht
      exact on_realize_checks_first e _ h0
    · intro k t hk ht
      obtain ⟨j, rfl⟩ : ∃ j, k = j + 1 := ⟨k - 1, by omega⟩
      simp only [realizeCalls, List.getElem?_cons_succ] at ht
      cases hs : (on_realize e { g := p.g, a := p.areas i }).status with
      | returned u =>
        rw [hs] at ht
        exact realizeCalls_no_check_of_flag rest _ (on_realize_sets_flag e _ hs) t
          (List.getElem?_mem ht)
      | exit1 =>
        rw [hs] at ht
        simp at ht
      | logFatal =>
        rw [hs] at ht
        simp at ht

/-- C5 in a process with two areas: the area on channel 7 is realized, then the area on
channel 8, then the area on channel 7 again. -/
theorem C5_witness_two_areas :
    process0.g.m_isGlewInitialized = false ∧
    (∀ t, (realizeCalls process0 [(0, envOk), (1, envOk), (0, envOk)])[0]? = some t →
      Event.check .gl_error ∈ t ∧
      ∃ pre post, t = pre ++ post ∧
        (∀ ev ∈ pre, ev.isLoadOrLink = false) ∧
        (∀ ev ∈ post, ev.isCheck = false) ∧
        ((∃ ev ∈ t, ev.isLoadOrLink = true) → ∀ c, Event.check c ∈ pre)) ∧
    (∀ k t, 0 < k → (realizeCalls process0 [(0, envOk), (1, envOk), (0, envOk)])[k]? = some t →
      ∀ ev ∈ t, ev.isCheck = false) ∧
    (realizeCalls process0 [(0, envOk), (1, envOk), (0, envOk)]).length = 3 :=
  ⟨rfl,
    (C5_checks_once_in_first_call_before_loads process0 [(0, envOk), (1, envOk), (0, envOk)]
      rfl).1,
    (C5_checks_once_in_first_call_before_loads process0 [(0, envOk), (1, envOk), (0, envOk)]
      rfl).2,
    by
      simp [realizeCalls, on_realize_ok envOk _ (Or.inr envOk_capsOk) envOk_assetsOk]⟩

/-! ## C6: a failed load, link or open is fatal -/

/-- C6: for every call of `on_realize`: if it returns normally then every shader was
loaded and every one of the six programs linked with success, every one of
the `NUM_EYE_COLORS` gradient files was opened with success, and the platform
answered success for all of them; if a load, a link or a gradient-file open
fails during the call, the call ends in `LogFatal`; and a call that gets
through the guarded block while some load, link or open cannot succeed ends
in `LogFatal`. -/
theorem C6_return_needs_every_load_link_open (e : Env) (w : World) :
    ((on_realize e w).status = .returned () →
      (∀ f, Event.load f true ∈ (on_realize e w).trace) ∧
      (∀ p, Event.link p true ∈ (on_realize e w).trace) ∧
      (∀ i, i < NUM_EYE_COLORS → Event.fopen i true ∈ (on_realize e w).trace) ∧
      e.assetsOk) ∧
    (∀ ev ∈ (on_realize e w).trace, ev.isFailure = true →
      (on_realize e w).status = .logFatal) ∧
    (gateOk e w → ¬ e.assetsOk → (on_realize e w).status = .logFatal) := by
  rcases on_realize_cases e w with ⟨hg, ha, h⟩ | ⟨hf, hc, hs, hw, t, ht, hall⟩ |
    ⟨hg, hna, hs, t, ht, hall⟩
  · rw [h]
    refine ⟨fun _ => ⟨fun f => ?_, fun p => ?_, fun i hi => ?_, ha⟩, ?_, ?_⟩
    · cases f <;> simp [realizeTrace, passTrace]
    · cases p <;> simp [realizeTrace, passTrace]
    · have hi6 : i < 6 := hi
      interval_cases i <;> simp [realizeTrace, passTrace]
    · intro ev hev hfail
      simp only [realizeTrace, checkTrace, passTrace] at hev
      split at hev <;> simp at hev <;>
        (rcases hev with h | h | h | h | h | h | h | h | h | h | h | h | h | h | h | h | h | h |
          h | h | h | h | h | h | h | h | h | h | h | h | h | h | h | h | h | h | h | h | h | h
          <;> simp [h, Event.isFailure] at hfail)
    · intro _ hna
      exact absurd ha hna
  · refine ⟨fun h => absurd h hs, ?_, ?_⟩
    · intro ev hev hfail
      rw [ht] at hev
      simp only [List.mem_cons] at hev
      rcases hev with h | h | h | h
      · simp [h, Event.isFailure] at hfail
      · simp [h, Event.isFailure] at hfail
      · simp [h, Event.isFailure] at hfail
      · rcases hall ev h with h' | h'
        · cases ev <;> simp [Event.isFailure, Event.isCheck] at hfail h'
        · simp [h', Event.isFailure] at hfail
    · intro hg _
      rcases hg with hg | hg
      · simp [hf] at hg
      · exact absurd hg hc
  · refine ⟨fun h => ?_, fun _ _ _ => hs, fun _ _ => hs⟩
    rw [hs] at h
    cases h

/-- C6 on a platform where everything succeeds. -/
theorem C6_witness_all_succeed :
    (∀ f, Event.load f true ∈ (on_realize envOk w0).trace) ∧
    (∀ p, Event.link p true ∈ (on_realize envOk w0).trace) ∧
    (∀ i, i < NUM_EYE_COLORS → Event.fopen i true ∈ (on_realize envOk w0).trace) :=
  have h := (C6_return_needs_every_load_link_open envOk w0).1
    (by
      rw [on_realize_ok envOk w0
        (Or.inr (by simp [Env.capsOk, envOk, glew_h, Env.GLEW_EXT_blend_equation_separate]))
        ⟨fun _ => rfl, fun _ => rfl, fun _ _ => rfl⟩])
  ⟨h.1, h.2.1, h.2.2.1⟩

/-! ## C7: `CleanupGLHandles` is idempotent -/

/-- C7: for every state, running `CleanupGLHandles` twice gives exactly the state that
running it once gives; both runs return normally and the second run deletes no
render data object. -/
theorem C7_cleanup_idempotent (w : World) :
    (CleanupGLHandles (CleanupGLHandles w).world).status = .returned () ∧
    (CleanupGLHandles (CleanupGLHandles w).world).world = (CleanupGLHandles w).world ∧
    (CleanupGLHandles (CleanupGLHandles w).world).world.a.m_waveformRenderData = none ∧
    (CleanupGLHandles (CleanupGLHandles w).world).world.a.m_overlayRenderData = [] ∧
    (∀ id, Event.deleteRenderData id ∉ (CleanupGLHandles (CleanupGLHandles w).world).trace) := by
  have hd : Texture.Destroy ∘ Texture.Destroy = Texture.Destroy := by
    funext t
    rfl
  simp [CleanupGLHandles_eq, cleanedWorld, cleanedArea, heldIds, cleanupTrace, hd]

/-! ## C8: `on_realize` twice -/

/-- C8, as stated, fails: on a newly constructed area and a platform where everything
succeeds, the second of two `on_realize` calls in a row creates a second
render data object while the first stays live, and adds the digital compute
shader to its program a second time; the state after two calls differs from
the state after one. -/
theorem C8_counterexample_second_realize_accumulates :
    (on_realize envOk w0).status = .returned () ∧
    (on_realize envOk (on_realize envOk w0).world).status = .returned () ∧
    (on_realize envOk w0).world.g.m_heapLive = [(0, ch7)] ∧
    (on_realize envOk (on_realize envOk w0).world).world.g.m_heapLive = [(0, ch7), (1, ch7)] ∧
    (on_realize envOk (on_realize envOk w0).world).world.a.m_waveformRenderData = some 1 ∧
    (on_realize envOk w0).world.a.m_digitalWaveformComputeProgram.m_shaders
      = [.waveform_compute_digital] ∧
    (on_realize envOk (on_realize envOk w0).world).world.a.m_digitalWaveformComputeProgram.m_shaders
      = [.waveform_compute_digital, .waveform_compute_digital] ∧
    (on_realize envOk (on_realize envOk w0).world).world.a ≠ (on_realize envOk w0).world.a := by
  have h1 := on_realize_ok envOk w0 (Or.inr envOk_capsOk) envOk_assetsOk
  have h2 := on_realize_ok envOk (realizedWorld w0) (Or.inr envOk_capsOk) envOk_assetsOk
  rw [h1]
  simp only [h2]
  refine ⟨trivial, trivial, ?_, ?_, ?_, ?_, ?_, ?_⟩
  · simp [realizedWorld, realizedArea, w0, construct, SharedCtorInit, memberInit, g0]
  · simp [realizedWorld, realizedArea, w0, construct, SharedCtorInit, memberInit, g0]
  · simp [realizedWorld, realizedArea, w0, construct, SharedCtorInit, memberInit, g0]
  · simp [realizedWorld, realizedArea, w0, construct, SharedCtorInit, memberInit,
      Program.Add, Program.Link]
  · simp [realizedWorld, realizedArea, w0, construct, SharedCtorInit, memberInit,
      Program.Add, Program.Link]
  · intro h
    have h' := congrArg WaveformArea.m_waveformRenderData h
    simp [realizedWorld, realizedArea, w0, construct, SharedCtorInit, memberInit, g0] at h'

/-- C8, amended: `on_realize` is idempotent only across an intervening
`CleanupGLHandles`. For every state in which all checks and loads succeed:
two calls in a row both return normally, but the second creates one more
render data object (the first stays live and is no longer referenced) and adds
the shaders of every pass to its program once more; with `CleanupGLHandles`
run between the two calls, the second call returns normally, the render data
object of the first call has been deleted and a new one is the live primary,
every program holds exactly the shaders of one call and is linked, and the
members of the area are those of a single `on_realize` after
`CleanupGLHandles`, up to the identity of the primary render data. -/
theorem C8_realize_idempotent_across_cleanup (e : Env) (w : World)
    (hg : gateOk e w) (ha : e.assetsOk) :
    (on_realize e (on_realize e w).world).status = .returned () ∧
    (on_realize e (on_realize e w).world).world.g.m_heapLive
      = w.g.m_heapLive ++
          [(w.g.m_heapNext, w.a.m_channel), (w.g.m_heapNext + 1, w.a.m_channel)] ∧
    (on_realize e (on_realize e w).world).world.a.m_waveformRenderData
      = some (w.g.m_heapNext + 1) ∧
    (∀ p, (getProgram p (on_realize e (on_realize e w).world).world.a).m_shaders
      = (getProgram p w.a).m_shaders ++ passShaders p ++ passShaders p) ∧
    (on_realize e (CleanupGLHandles (on_realize e w).world).world).status = .returned () ∧
    (on_realize e (CleanupGLHandles (on_realize e w).world).world).world.a.m_waveformRenderData
      = some (w.g.m_heapNext + 1) ∧
    (on_realize e (CleanupGLHandles (on_realize e w).world).world).world.g.isLive
      (w.g.m_heapNext + 1) ∧
    ¬ (on_realize e (CleanupGLHandles (on_realize e w).world).world).world.g.isLive
      w.g.m_heapNext ∧
    (∀ p, getProgram p (on_realize e (CleanupGLHandles (on_realize e w).world).world).world.a
      = { m_handle := true, m_shaders := passShaders p, m_linked := true }) ∧
    (on_realize e (CleanupGLHandles (on_realize e w).world).world).world.a
      = { (on_realize e (CleanupGLHandles w).world).world.a with
          m_waveformRenderData := some (w.g.m_heapNext + 1) } := by
  have hg1 : gateOk e (realizedWorld w) := Or.inl rfl
  have hg2 : gateOk e (cleanedWorld (realizedWorld w)) := Or.inl rfl
  have hg3 : gateOk e (cleanedWorld w) := hg
  rw [on_realize_ok e w hg ha]
  simp only [CleanupGLHandles_eq, on_realize_ok e _ hg1 ha, on_realize_ok e _ hg2 ha,
    on_realize_ok e _ hg3 ha]
  refine ⟨trivial, ?_, ?_, ?_, trivial, ?_, ?_, ?_, ?_, ?_⟩
  · simp [realizedWorld, realizedArea]
  · simp [realizedWorld, realizedArea]
  · intro p
    cases p <;> simp [realizedWorld, realizedArea, passShaders, Program.Add, Program.Link]
  · simp [realizedWorld, realizedArea, cleanedWorld, cleanedArea]
  · simp [Globals.isLive, realizedWorld, realizedArea, cleanedWorld, cleanedArea]
  · simp [Globals.isLive, realizedWorld, realizedArea, cleanedWorld, cleanedArea, heldIds]
  · intro p
    cases p <;> simp [realizedWorld, realizedArea, cleanedWorld, cleanedArea, passShaders,
      Program.Add, Program.Link]
  · simp only [realizedWorld, realizedArea, cleanedWorld, cleanedArea, map_Texture_Destroy,
      List.length_set]

/-- C8 amended, at a newly constructed area on a platform where everything succeeds. -/
theorem C8_witness_new_area :
    (on_realize envOk (CleanupGLHandles (on_realize envOk w0).world).world).status
      = .returned () ∧
    ¬ (on_realize envOk (CleanupGLHandles (on_realize envOk w0).world).world).world.g.isLive
      w0.g.m_heapNext ∧
    (∀ p, getProgram p
        (on_realize envOk (CleanupGLHandles (on_realize envOk w0).world).world).world.a
      = { m_handle := true, m_shaders := passShaders p, m_linked := true }) :=
  have h := C8_realize_idempotent_across_cleanup envOk w0 (Or.inr envOk_capsOk) envOk_assetsOk
  ⟨h.2.2.2.2.1, h.2.2.2.2.2.2.2.1, h.2.2.2.2.2.2.2.2.1⟩

/-! ## C9: the first frame after realization -/

/-- C9, as stated, fails: in a state whose `m_persistenceClear` is false, a successful
`on_realize` marks the first frame but leaves `m_persistenceClear` false. -/
theorem C9_counterexample_persistenceClear_not_set :
    wCleared.a.m_persistenceClear = false ∧
    (on_realize envOk wCleared).status = .returned () ∧
    (on_realize envOk wCleared).world.a.m_firstFrame = true ∧
    (on_realize envOk wCleared).world.a.m_persistenceClear = false := by
  have hg : gateOk envOk wCleared :=
    Or.inr (by simp [Env.capsOk, envOk, glew_h, Env.GLEW_EXT_blend_equation_separate])
  have ha : envOk.assetsOk := ⟨fun _ => rfl, fun _ => rfl, fun _ _ => rfl⟩
  rw [on_realize_ok _ _ hg ha]
  simp [wCleared, w0, construct, SharedCtorInit, memberInit, realizedWorld, realizedArea]

/-- C9, amended: on successful return from `on_realize` the area is marked as drawing its
first frame (`m_firstFrame` is true) and `m_persistenceClear` has the value it
had before the call; for an area that has just been constructed that value is
true, so a persistence clear is pending. -/
theorem C9_realize_marks_first_frame_keeps_persistenceClear (e : Env) (w : World)
    (h : (on_realize e w).status = .returned ()) :
    (on_realize e w).world.a.m_firstFrame = true ∧
    (on_realize e w).world.a.m_persistenceClear = w.a.m_persistenceClear ∧
    (∀ channel parent g, w = (construct channel parent g).world →
      (on_realize e w).world.a.m_persistenceClear = true) := by
  obtain ⟨hg, ha⟩ := (on_realize_returned_iff e w).1 h
  rw [on_realize_ok e w hg ha]
  refine ⟨by simp [realizedWorld, realizedArea], by simp [realizedWorld, realizedArea], ?_⟩
  intro channel parent g hw
  subst hw
  simp [realizedWorld, realizedArea, construct, SharedCtorInit, memberInit]

/-- C9 amended, at a newly constructed area on a platform where everything succeeds. -/
theorem C9_witness_new_area :
    (on_realize envOk w0).world.a.m_firstFrame = true ∧
    (on_realize envOk w0).world.a.m_persistenceClear = true :=
  have h := C9_realize_marks_first_frame_keeps_persistenceClear envOk w0
    (by
      rw [on_realize_ok envOk w0
        (Or.inr (by simp [Env.capsOk, envOk, glew_h, Env.GLEW_EXT_blend_equation_separate]))
        ⟨fun _ => rfl, fun _ => rfl, fun _ _ => rfl⟩])
  ⟨h.1, h.2.2 ch7 1 g0 rfl⟩

/-! ## C10: render data and the area's own reference -/

/-- C10, as stated, fails, in two ways. Construct an area on channel 7 in a process
where nobody else holds a reference, and realize it. First, destroy it: the
destructor releases the area's reference and never removes the primary render
data, so afterwards `m_waveformRenderData` still points to a live render data
object for channel 7 while the reference count of channel 7 is zero. Second,
call `OnRemoveOverlay` with a descriptor on channel 7 instead: its `Release` is
unconditional, so the area holds render data for channel 7 while the reference
count of channel 7 is zero. -/
theorem C10_counterexample_reference_dropped_while_render_data_held :
    (runSteps w0 [.realize envOk, .destroy]
      = some (destructor (on_realize envOk w0).world).world ∧
     (destructor (on_realize envOk w0).world).world.a.holdsRenderDataFor ch7.m_channel ∧
     (destructor (on_realize envOk w0).world).world.a.holds 0 ∧
     (destructor (on_realize envOk w0).world).world.g.isLive 0 ∧
     (destructor (on_realize envOk w0).world).world.g.m_refcount ch7.m_channel = 0 ∧
     ownRefs g0.m_refcount (destructor (on_realize envOk w0).world).world ch7.m_channel = 0 ∧
     (destructor (on_realize envOk w0).world).trace = [.release ch7.m_channel]) ∧
    (runSteps w0 [.realize envOk, .removeOverlay ch7]
      = some (OnRemoveOverlay ch7 (on_realize envOk w0).world).world ∧
     (OnRemoveOverlay ch7 (on_realize envOk w0).world).world.a.holdsRenderDataFor
       ch7.m_channel ∧
     (OnRemoveOverlay ch7 (on_realize envOk w0).world).world.g.m_refcount ch7.m_channel = 0 ∧
     ownRefs g0.m_refcount (OnRemoveOverlay ch7 (on_realize envOk w0).world).world
       ch7.m_channel = 0 ∧
     (OnRemoveOverlay ch7 (on_realize envOk w0).world).trace = [.release ch7.m_channel]) := by
  have h1 := on_realize_ok envOk w0 (Or.inr envOk_capsOk) envOk_assetsOk
  refine ⟨⟨?_, ?_, ?_, ?_, ?_, ?_, ?_⟩, ?_, ?_, ?_, ?_, ?_⟩
  · simp [runSteps, h1]
  · rw [h1, destructor_eq]
    simp [WaveformArea.holdsRenderDataFor, realizedWorld, realizedArea, w0, construct,
      SharedCtorInit, memberInit, g0, removeOverlaysWorld]
  · rw [h1, destructor_eq]
    simp [WaveformArea.holds, realizedWorld, realizedArea, w0, construct, SharedCtorInit,
      memberInit, g0, removeOverlaysWorld]
  · rw [h1, destructor_eq]
    simp [Globals.isLive, realizedWorld, realizedArea, w0, construct, SharedCtorInit,
      memberInit, g0, removeOverlaysWorld]
  · rw [h1, destructor_eq]
    simp [realizedWorld, realizedArea, w0, construct, SharedCtorInit, memberInit, g0,
      removeOverlaysWorld, ch7]
  · rw [h1, destructor_eq]
    simp [ownRefs, realizedWorld, realizedArea, w0, construct, SharedCtorInit, memberInit, g0,
      removeOverlaysWorld, ch7]
  · rw [h1, destructor_eq]
    simp [realizedWorld, realizedArea, w0, construct, SharedCtorInit, memberInit, g0,
      removeOverlaysTrace, ch7]
  · simp [runSteps, h1]
  · rw [h1, OnRemoveOverlay_eq]
    simp [WaveformArea.holdsRenderDataFor, removeOverlayWorld, realizedWorld, realizedArea, w0,
      construct, SharedCtorInit, memberInit, g0]
  · rw [h1, OnRemoveOverlay_eq]
    simp [removeOverlayWorld, realizedWorld, realizedArea, w0, construct, SharedCtorInit,
      memberInit, g0, ch7]
  · rw [h1, OnRemoveOverlay_eq]
    simp [ownRefs, removeOverlayWorld, realizedWorld, realizedArea, w0, construct,
      SharedCtorInit, memberInit, g0, ch7]
  · rw [h1, OnRemoveOverlay_eq]
    simp [removeOverlayTrace, mapFind, realizedWorld, realizedArea, w0, construct,
      SharedCtorInit, memberInit, g0, ch7]

/-- C10, amended. The references of the area on a channel are counted from the
reference count that `AddRef` and `Release` maintain, less the references `ext`
of the rest of the program. Start from any state in which, on every channel,
the area holds at least one reference for `m_channel` and one for each entry of
`m_overlayRenderData`, and take any sequence of `on_realize`, `on_unrealize`,
`OnRemoveOverlay` and destruction calls in which `OnRemoveOverlay(filter)` is
called only when `filter` has an entry in the store or the area has a reference
to spare on the channel of `filter`, and the destructor only when the area
holds no render data. Then in the state reached, for every channel for which
the area holds render data (primary or overlay), the area still holds a
reference on it, so the reference count of the channel exceeds what the rest of
the program holds and is positive when that is not negative. The state right
after construction is such a start: the constructor calls `AddRef` on the
channel and leaves the area without render data. And `OnRemoveOverlay` erases
the render data entry of the overlay before it releases the overlay's
channel. -/
theorem C10_render_data_has_reference_in_orderly_life
    (ext : ChannelId → Int) (w w1 : World) (steps : List Step)
    (hcov : refsCover ext w)
    (hord : orderlyRun ext w steps)
    (hrun : runSteps w steps = some w1) :
    (∀ c, w1.a.holdsRenderDataFor c → 1 ≤ ownRefs ext w1 c) ∧
    (∀ c, w1.a.holdsRenderDataFor c → 0 ≤ ext c → 0 < w1.g.m_refcount c) ∧
    (∀ (channel : StreamDescriptor) (parent : Nat) (g : Globals),
      (construct channel parent g).trace = [.addRef channel.m_channel] ∧
      (∀ id, ¬ (construct channel parent g).world.a.holds id) ∧
      refsCover g.m_refcount (construct channel parent g).world) ∧
    (∀ (w : World) (filter : StreamDescriptor) (id : RenderDataId),
      mapFind filter w.a.m_overlayRenderData = some id →
      (OnRemoveOverlay filter w).trace
        = [.eraseOverlayRenderData filter id, .release filter.m_channel]) := by
  have hown : ∀ c, w1.a.holdsRenderDataFor c → 1 ≤ ownRefs ext w1 c := by
    intro c hc
    rcases runSteps_refsCover ext steps w w1 hcov hord hrun with h | h
    · exact le_trans (neededRefs_pos_of_holdsRenderDataFor _ c hc) (h c)
    · obtain ⟨id, hid⟩ := holds_of_holdsRenderDataFor _ c hc
      exact absurd hid (h id)
  refine ⟨hown, ?_, ?_, ?_⟩
  · intro c hc hext
    have := hown c hc
    simp only [ownRefs] at this
    omega
  · intro channel parent g
    refine ⟨?_, ?_, ?_⟩
    · simp [construct, SharedCtorInit, memberInit]
    · intro id
      simp [WaveformArea.holds, construct, SharedCtorInit, memberInit]
    · intro c
      by_cases hc : c = channel.m_channel
      · subst hc
        simp [neededRefs, ownRefs, entriesOn, construct, SharedCtorInit, memberInit]
      · simp [neededRefs, ownRefs, entriesOn, construct, SharedCtorInit, memberInit, hc,
          Function.update_noteq hc]
  · intro w filter id h
    simp [OnRemoveOverlay_eq, removeOverlayTrace, h]

/-- C10 amended, on a realized area on channel 7 with render data for the overlays
on channels 8 and 9, one reference held on each of the three channels and none
by the rest of the program: after `OnRemoveOverlay(ch8)` the area holds render
data for channels 7 and 9 and not for channel 8, and still one reference on
each of 7 and 9. -/
theorem C10_witness_remove_one_of_two_overlays :
    refsCover (fun _ => 0) wTwoOverlays ∧
    orderlyRun (fun _ => 0) wTwoOverlays [.removeOverlay ch8] ∧
    runSteps wTwoOverlays [.removeOverlay ch8] = some wTwoOverlaysLessCh8 ∧
    wTwoOverlaysLessCh8.a.holdsRenderDataFor 7 ∧
    wTwoOverlaysLessCh8.a.holdsRenderDataFor 9 ∧
    ¬ wTwoOverlaysLessCh8.a.holdsRenderDataFor 8 ∧
    wTwoOverlaysLessCh8.g.m_refcount 8 = 0 ∧
    (∀ c, wTwoOverlaysLessCh8.a.holdsRenderDataFor c →
      1 ≤ ownRefs (fun _ => 0) wTwoOverlaysLessCh8 c) := by
  have hcov : refsCover (fun _ => 0) wTwoOverlays := by
    intro c
    by_cases h7 : c = 7
    · subst h7
      simp [neededRefs, ownRefs, entriesOn, wTwoOverlays, realizedArea, w0, construct,
        SharedCtorInit, memberInit, ch7, ch8, ch9]
    · by_cases h8 : c = 8
      · subst h8
        simp [neededRefs, ownRefs, entriesOn, wTwoOverlays, realizedArea, w0, construct,
          SharedCtorInit, memberInit, ch7, ch8, ch9]
      · by_cases h9 : c = 9
        · subst h9
          simp [neededRefs, ownRefs, entriesOn, wTwoOverlays, realizedArea, w0, construct,
            SharedCtorInit, memberInit, ch7, ch8, ch9]
        · have h8b : ¬ 8 = c := fun e => h8 e.symm
          have h9b : ¬ 9 = c := fun e => h9 e.symm
          simp [neededRefs, ownRefs, entriesOn, wTwoOverlays, realizedArea, w0, construct,
            SharedCtorInit, memberInit, ch7, ch8, ch9, h7, h8, h9, h8b, h9b, List.count_cons]
  have hord : orderlyRun (fun _ => 0) wTwoOverlays [.removeOverlay ch8] := by
    simp [orderlyRun, wTwoOverlays, mapFind]
  have hrun : runSteps wTwoOverlays [.removeOverlay ch8] = some wTwoOverlaysLessCh8 := by
    simp [runSteps, wTwoOverlaysLessCh8]
  refine ⟨hcov, hord, hrun, ?_, ?_, ?_, ?_,
    (C10_render_data_has_reference_in_orderly_life (fun _ => 0) wTwoOverlays
      wTwoOverlaysLessCh8 [.removeOverlay ch8] hcov hord hrun).1⟩
  · simp [wTwoOverlaysLessCh8, OnRemoveOverlay_eq, removeOverlayWorld,
      WaveformArea.holdsRenderDataFor, wTwoOverlays, realizedArea, w0, construct,
      SharedCtorInit, memberInit, ch7]
  · simp [wTwoOverlaysLessCh8, OnRemoveOverlay_eq, removeOverlayWorld,
      WaveformArea.holdsRenderDataFor, wTwoOverlays, mapErase, ch8, ch9]
  · simp [wTwoOverlaysLessCh8, OnRemoveOverlay_eq, removeOverlayWorld,
      WaveformArea.holdsRenderDataFor, wTwoOverlays, realizedArea, w0, construct,
      SharedCtorInit, memberInit, mapErase, ch7, ch8, ch9]
  · simp [wTwoOverlaysLessCh8, OnRemoveOverlay_eq, removeOverlayWorld, wTwoOverlays, ch8]


/-! ## C11: the order of teardown -/

/-- C11: for every state, `on_unrealize` returns normally and its trace is: the context made
current, then exactly the effects of `CleanupGLHandles`, then the base-class
`Gtk::GLArea::on_unrealize`. The effects in between destroy every program,
VAO, VBO, both cairo textures and every eye color ramp and delete every render
data object the area held (primary and overlays); the context is not made
current again and the base-class call does not occur among them. -/
theorem C11_unrealize_destroys_before_base_class (w : World) :
    (on_unrealize w).status = .returned () ∧
    (on_unrealize w).trace
      = .make_current :: ((CleanupGLHandles w).trace ++ [.gtk_on_unrealize]) ∧
    Event.make_current ∉ (CleanupGLHandles w).trace ∧
    Event.gtk_on_unrealize ∉ (CleanupGLHandles w).trace ∧
    (∀ p, Event.destroy (.program p) ∈ (CleanupGLHandles w).trace) ∧
    (∀ q, Event.destroy (.vao q) ∈ (CleanupGLHandles w).trace) ∧
    (∀ q, Event.destroy (.vbo q) ∈ (CleanupGLHandles w).trace) ∧
    Event.destroy .cairoTexture ∈ (CleanupGLHandles w).trace ∧
    Event.destroy .cairoTextureOver ∈ (CleanupGLHandles w).trace ∧
    (∀ i, i < w.a.m_eyeColorRamp.length →
      Event.destroy (.eyeColorRamp i) ∈ (CleanupGLHandles w).trace) ∧
    (∀ id, w.a.holds id → Event.deleteRenderData id ∈ (CleanupGLHandles w).trace) := by
  refine ⟨by simp [on_unrealize_eq], by simp [on_unrealize_eq, CleanupGLHandles_eq],
    ?_, ?_, ?_, ?_, ?_, ?_, ?_, ?_, ?_⟩
  · simp [CleanupGLHandles_eq, cleanupTrace]
  · simp [CleanupGLHandles_eq, cleanupTrace]
  · intro p
    cases p <;> simp [CleanupGLHandles_eq, cleanupTrace]
  · intro q
    cases q <;> simp [CleanupGLHandles_eq, cleanupTrace]
  · intro q
    cases q <;> simp [CleanupGLHandles_eq, cleanupTrace]
  · simp [CleanupGLHandles_eq, cleanupTrace]
  · simp [CleanupGLHandles_eq, cleanupTrace]
  · intro i hi
    simp [CleanupGLHandles_eq, cleanupTrace, hi]
  · intro id hid
    rw [CleanupGLHandles_eq]
    exact cleanupTrace_deletes_held w.a id hid

/-! ## C12: the semi-copy constructor -/

/-- C12: for every source area `clone` and process state, the semi-copy constructor returns
an area with the `m_persistence`, `m_channel`, `m_parent`, `m_pixelsPerVolt`
and the four fonts of `clone`, and with new render state whatever the state
of `clone`: `m_waveformRenderData` is NULL, the overlay render-data store and
the overlay list are empty, `m_firstFrame` is false, `m_persistenceClear` is
true, the programs, VAOs, VBOs and textures have no GL object; the reference
count of the channel is incremented by exactly one (one `AddRef` call), the
other reference counts, the heap and the flag are unchanged. -/
theorem C12_semi_copy_constructor_clones_ui_settings_only (clone : WaveformArea)
    (g : Globals) :
    (constructClone clone g).status = .returned () ∧
    (constructClone clone g).world.a.m_persistence = clone.m_persistence ∧
    (constructClone clone g).world.a.m_channel = clone.m_channel ∧
    (constructClone clone g).world.a.m_parent = clone.m_parent ∧
    (constructClone clone g).world.a.m_pixelsPerVolt = clone.m_pixelsPerVolt ∧
    (constructClone clone g).world.a.m_axisLabelFont = clone.m_axisLabelFont ∧
    (constructClone clone g).world.a.m_infoBoxFont = clone.m_infoBoxFont ∧
    (constructClone clone g).world.a.m_cursorLabelFont = clone.m_cursorLabelFont ∧
    (constructClone clone g).world.a.m_decodeFont = clone.m_decodeFont ∧
    (constructClone clone g).world.a.m_waveformRenderData = none ∧
    (constructClone clone g).world.a.m_overlayRenderData = [] ∧
    (constructClone clone g).world.a.m_overlays = [] ∧
    (constructClone clone g).world.a.m_firstFrame = false ∧
    (constructClone clone g).world.a.m_persistenceClear = true ∧
    (∀ p, getProgram p (constructClone clone g).world.a = {}) ∧
    (∀ q, getVAO q (constructClone clone g).world.a = {}) ∧
    (∀ q, getVBO q (constructClone clone g).world.a = {}) ∧
    (constructClone clone g).world.a.m_cairoTexture = {} ∧
    (constructClone clone g).world.a.m_cairoTextureOver = {} ∧
    (constructClone clone g).world.a.m_eyeColorRamp = List.replicate NUM_EYE_COLORS {} ∧
    (constructClone clone g).world.a.m_windowFramebuffer = {} ∧
    (constructClone clone g).world.g.m_refcount clone.m_channel.m_channel
      = g.m_refcount clone.m_channel.m_channel + 1 ∧
    (∀ c, c ≠ clone.m_channel.m_channel →
      (constructClone clone g).world.g.m_refcount c = g.m_refcount c) ∧
    (constructClone clone g).world.g.m_heapLive = g.m_heapLive ∧
    (constructClone clone g).world.g.m_heapNext = g.m_heapNext ∧
    (constructClone clone g).world.g.m_isGlewInitialized = g.m_isGlewInitialized ∧
    (constructClone clone g).trace = [.addRef clone.m_channel.m_channel] := by
  simp [constructClone, SharedCtorInit, memberInitClone, memberInit]
  refine ⟨?_, ?_, ?_, ?_⟩
  · intro p
    cases p <;> rfl
  · intro q
    cases q <;> rfl
  · intro q
    cases q <;> rfl
  · intro c hc
    simp [Function.update, hc]

/-! ## C13: the window framebuffer -/

/-- C13: for every state, `CleanupGLHandles` calls `Detach` on `m_windowFramebuffer` and on
nothing else, and calls `Destroy` on each of the six programs, four VAOs, four
VBOs, the two cairo textures and every eye color ramp, but never on the
window framebuffer; afterwards the framebuffer member has forgotten its
handle. -/
theorem C13_cleanup_detaches_window_framebuffer (w : World) :
    Event.detach .windowFramebuffer ∈ (CleanupGLHandles w).trace ∧
    Event.destroy .windowFramebuffer ∉ (CleanupGLHandles w).trace ∧
    (∀ o, Event.detach o ∈ (CleanupGLHandles w).trace → o = .windowFramebuffer) ∧
    (∀ p, Event.destroy (.program p) ∈ (CleanupGLHandles w).trace) ∧
    (∀ q, Event.destroy (.vao q) ∈ (CleanupGLHandles w).trace) ∧
    (∀ q, Event.destroy (.vbo q) ∈ (CleanupGLHandles w).trace) ∧
    Event.destroy .cairoTexture ∈ (CleanupGLHandles w).trace ∧
    Event.destroy .cairoTextureOver ∈ (CleanupGLHandles w).trace ∧
    (∀ i, i < w.a.m_eyeColorRamp.length →
      Event.destroy (.eyeColorRamp i) ∈ (CleanupGLHandles w).trace) ∧
    (CleanupGLHandles w).world.a.m_windowFramebuffer = w.a.m_windowFramebuffer.Detach := by
  rw [CleanupGLHandles_eq]
  refine ⟨?_, ?_, ?_, ?_, ?_, ?_, ?_, ?_, ?_, ?_⟩
  · simp [cleanupTrace]
  · simp [cleanupTrace]
  · intro o ho
    simpa [cleanupTrace] using ho
  · intro p
    cases p <;> simp [cleanupTrace]
  · intro q
    cases q <;> simp [cleanupTrace]
  · intro q
    cases q <;> simp [cleanupTrace]
  · simp [cleanupTrace]
  · simp [cleanupTrace]
  · intro i hi
    simp [cleanupTrace, hi]
  · simp [cleanedWorld, cleanedArea, Framebuffer.Detach]

/-! ## C14: the destructor and the overlays -/

/-- C14: for every area whose overlay store has unique keys (it is a `std::map`) and whose
overlay list is `L`, the destructor returns normally; its `Release` calls are,
in order, one on the primary channel and one on the channel of each element of
`L`; so the reference count of every channel goes down by one if it is the
primary channel plus the number of elements of `L` on that channel; afterwards
`m_overlays` is empty and `m_overlayRenderData` has no entry for any element
of `L`. -/
theorem C14_destructor_releases_primary_and_each_overlay (w : World)
    (hu : uniqueKeys w.a.m_overlayRenderData) :
    (destructor w).status = .returned () ∧
    (destructor w).trace.filter Event.isRelease
      = .release w.a.m_channel.m_channel ::
          w.a.m_overlays.map (fun d => Event.release d.m_channel) ∧
    (∀ c, (destructor w).world.g.m_refcount c
      = w.g.m_refcount c - (if c = w.a.m_channel.m_channel then 1 else 0)
          - overlaysOn c w.a.m_overlays) ∧
    (destructor w).world.a.m_overlays = [] ∧
    (∀ d ∈ w.a.m_overlays, mapFind d (destructor w).world.a.m_overlayRenderData = none) := by
  rw [destructor_eq]
  refine ⟨rfl, ?_, ?_, rfl, ?_⟩
  · have hsub : ∀ (o : Option Nat),
        (o.toList.map Event.deleteDialog).filter Event.isRelease = [] := by
      intro o
      cases o <;> simp [Event.isRelease]
    have hmenu : (w.a.m_moveExistingGroupItems.map Event.removeMenuItem).filter
        Event.isRelease = [] := by
      simp [List.filter_eq_nil_iff, Event.isRelease]
    simp only [List.filter_cons, Event.isRelease, if_true, List.filter_append,
      removeOverlaysTrace_release, hsub, hmenu, List.append_nil]
  · intro c
    simp only [(removeOverlaysWorld_spec w.a.m_overlays _).2.2.1 c]
    by_cases hc : c = w.a.m_channel.m_channel
    · subst hc
      simp
    · simp [Function.update, hc]
  · intro d hd
    exact (removeOverlaysWorld_spec w.a.m_overlays
      { w with g := { w.g with
          m_refcount := Function.update w.g.m_refcount w.a.m_channel.m_channel
            (w.g.m_refcount w.a.m_channel.m_channel - 1) } }).1 hu d hd

/-- C14 at an area whose overlay list names the overlay `ch8` twice and `ch9` once. -/
theorem C14_witness_repeated_overlay :
    uniqueKeys wRepeatedOverlay.a.m_overlayRenderData ∧
    (destructor wRepeatedOverlay).world.g.m_refcount 7 = wRepeatedOverlay.g.m_refcount 7 - 1 ∧
    (destructor wRepeatedOverlay).world.g.m_refcount 8 = wRepeatedOverlay.g.m_refcount 8 - 2 ∧
    (destructor wRepeatedOverlay).world.g.m_refcount 9 = wRepeatedOverlay.g.m_refcount 9 - 1 ∧
    (destructor wRepeatedOverlay).world.a.m_overlays = [] ∧
    mapFind ch8 (destructor wRepeatedOverlay).world.a.m_overlayRenderData = none ∧
    mapFind ch9 (destructor wRepeatedOverlay).world.a.m_overlayRenderData = none := by
  have hu : uniqueKeys wRepeatedOverlay.a.m_overlayRenderData := by
    simp [uniqueKeys, wRepeatedOverlay, wTwoOverlays, ch8, ch9]
  have h := C14_destructor_releases_primary_and_each_overlay wRepeatedOverlay hu
  refine ⟨hu, ?_, ?_, ?_, h.2.2.2.1, ?_, ?_⟩
  · rw [h.2.2.1 7]
    simp [wRepeatedOverlay, wTwoOverlays, realizedArea, w0, construct, SharedCtorInit,
      memberInit, ch7, ch8, ch9, overlaysOn]
  · rw [h.2.2.1 8]
    simp [wRepeatedOverlay, wTwoOverlays, realizedArea, w0, construct, SharedCtorInit,
      memberInit, ch7, ch8, ch9, overlaysOn]
  · rw [h.2.2.1 9]
    simp [wRepeatedOverlay, wTwoOverlays, realizedArea, w0, construct, SharedCtorInit,
      memberInit, ch7, ch8, ch9, overlaysOn]
  · exact h.2.2.2.2 ch8 (by simp [wRepeatedOverlay])
  · exact h.2.2.2.2 ch9 (by simp [wRepeatedOverlay])

/-! ## C15: `OnRemoveOverlay` touches only its argument -/

/-- C15: for every state whose overlay store has unique keys (it is a `std::map`) and every
stream descriptor `filter`, `OnRemoveOverlay(filter)` returns normally; for
every stream descriptor other than `filter` the entry of `m_overlayRenderData`
(present or absent, and its value) is the same before and after; afterwards
the map has no entry for `filter`; the primary `m_waveformRenderData` is
unchanged; and the reference count of every channel other than the channel of
`filter` is unchanged. -/
theorem C15_remove_overlay_touches_only_filter (w : World) (filter : StreamDescriptor)
    (hu : uniqueKeys w.a.m_overlayRenderData) :
    (OnRemoveOverlay filter w).status = .returned () ∧
    (∀ other, other ≠ filter →
      mapFind other (OnRemoveOverlay filter w).world.a.m_overlayRenderData
        = mapFind other w.a.m_overlayRenderData) ∧
    mapFind filter (OnRemoveOverlay filter w).world.a.m_overlayRenderData = none ∧
    (OnRemoveOverlay filter w).world.a.m_waveformRenderData = w.a.m_waveformRenderData ∧
    (∀ c, c ≠ filter.m_channel →
      (OnRemoveOverlay filter w).world.g.m_refcount c = w.g.m_refcount c) := by
  rw [OnRemoveOverlay_eq]
  refine ⟨rfl, ?_, ?_, rfl, ?_⟩
  · intro other ho
    exact mapFind_mapErase_ne filter other _ ho
  · exact mapFind_mapErase_self filter _ hu
  · intro c hc
    simp [removeOverlayWorld, Function.update, hc]

/-- C15 at the area with two overlay entries, removing the overlay `ch8`. -/
theorem C15_witness_two_overlays :
    uniqueKeys wTwoOverlays.a.m_overlayRenderData ∧
    mapFind ch9 (OnRemoveOverlay ch8 wTwoOverlays).world.a.m_overlayRenderData = some 2 ∧
    mapFind ch8 (OnRemoveOverlay ch8 wTwoOverlays).world.a.m_overlayRenderData = none ∧
    (OnRemoveOverlay ch8 wTwoOverlays).world.a.m_waveformRenderData = some 0 ∧
    (OnRemoveOverlay ch8 wTwoOverlays).world.g.m_refcount 7 = 1 := by
  have hu : uniqueKeys wTwoOverlays.a.m_overlayRenderData := by
    simp [uniqueKeys, wTwoOverlays, ch8, ch9]
  have h := C15_remove_overlay_touches_only_filter wTwoOverlays ch8 hu
  refine ⟨hu, ?_, h.2.2.1, ?_, ?_⟩
  · rw [h.2.1 ch9 (by simp [ch8, ch9])]
    simp [wTwoOverlays, mapFind, ch8, ch9]
  · rw [h.2.2.2.1]
    simp [wTwoOverlays, realizedArea]
  · rw [h.2.2.2.2 7 (by simp [ch8])]
    simp [wTwoOverlays]

end Scopehal
